import Mathlib

/-!
Perf trampoline (Objects/perf_trampoline.c): embedding and verification

The C file keeps its state in four file-static variables (`perf_status`,
`extra_code_index`, `code_arena`, `trampoline_api`) plus `perf_map_file`, and
talks to the outside through system calls (`mmap`, `mprotect`, `munmap`,
`open`, `fdopen`, `fclose`), the allocator (`PyMem_RawCalloc`) and the three
registered callbacks.  The embedding threads one explicit `State` through every
function; what the outside world answers to a call is read from a `sys_env`
record, and every call that leaves the file is appended to `State.trace` in
program order.

* `size_t` values are naturals; the one subtraction that can wrap
  (`size_left -= code_size`) is taken modulo `2^64`.
* Addresses are naturals, `0` is `NULL`; pointer additions are plain additions.
* The linked list of arenas (`prev` pointers) is a Lean list, newest first;
  `[]` is `code_arena == NULL`.
* The three callback slots hold either the function of this file that matches
  the slot or a function defined elsewhere.  A function defined elsewhere cannot
  reach the file-static variables, so its only footprint is its trace entry and
  its return value.  States in which a slot is still a `NULL` function pointer
  (nothing registered yet) are not represented.
* `code_size` is the distance between the two template symbols, a link-time
  constant; it is a parameter of every function that needs it.
* A function of the file that does not return (a failed `assert`) yields
  `none`; where it is called through a callback slot the trace records `abort`.
  The functions around it are total, so a run goes on past that entry, but the
  program does not: what a trace holds after `abort` did not happen.
-/

namespace PerfTrampoline

/-! ## Data model -/

/-- The enum `perf_status_t`. -/
inductive perf_status_t
  | PERF_STATUS_FAILED
  | PERF_STATUS_NO_INIT
  | PERF_STATUS_OK
  deriving DecidableEq, Repr

/-- The record `struct code_arena_st`, without its `prev` pointer: the list that
holds the record plays that part. -/
structure code_arena_t where
  start_addr : Nat
  current_addr : Nat
  size : Nat
  size_left : Nat
  code_size : Nat
  deriving DecidableEq, Repr

/-- What a callback slot of `trampoline_api` points at: `perf_map` is the
function of this file written for that slot (`_Py_perf_map_get_file`,
`_Py_perf_map_write_entry`, `_Py_perf_map_close`), `external` is any function
defined outside the file. -/
inductive callback_t
  | perf_map
  | external
  deriving DecidableEq, Repr

/-- The record `struct trampoline_api_st`. -/
structure trampoline_api_t where
  init_state : callback_t
  write_state : callback_t
  free_state : callback_t
  state : Nat
  deriving DecidableEq, Repr

/-- The value of `tstate->interp->eval_frame`. -/
inductive eval_frame_t
  | NULL
  | py_trampoline_evaluator
  | other (fn : Nat)
  deriving DecidableEq, Repr

/-- The fields of a code object the file reads.  `co_id` is the object's
identity (its address); a name is `none` when `PyUnicode_AsUTF8` returns
`NULL` for it. -/
structure PyCodeObject where
  co_id : Nat
  co_qualname : Option String
  co_filename : Option String
  deriving DecidableEq, Repr

/-- The one field of `_PyInterpreterFrame` the file reads. -/
structure PyInterpreterFrame where
  f_code : PyCodeObject
  deriving DecidableEq, Repr

/-- Calls that leave the file, in the order the program makes them. -/
inductive Event
  | mmap (len ret : Nat)
  | memcpy (dst len : Nat)
  | mprotect (addr len : Nat) (ret : Int)
  | munmap (addr len : Nat)
  | calloc (ret : Nat)
  | unraisable (msg : String)
  | err_set (msg : String)
  | request_index (ret : Int)
  | init_state (ret : Nat)
  | write_state (state addr code_size co : Nat)
  | free_state (state : Nat)
  | set_extra (co : Nat) (index : Int) (value : Nat)
  | open_file (fd : Int)
  | fdopen (fd : Int) (ret : Nat)
  | close (fd : Int)
  | fprintf (fp : Nat) (text : String)
  | fflush (fp : Nat)
  | fclose (fp : Nat)
  | abort
  deriving DecidableEq, Repr

/-- What the outside world answers during one call into the file. -/
structure sys_env where
  mmap_ret : Nat
  mprotect_ret : Int
  calloc_ret : Nat
  extra_index : Int
  init_ret : Nat
  open_ret : Int
  fdopen_ret : Nat
  deriving DecidableEq, Repr

/-- The file-static variables, the interpreter's `eval_frame` hook, the
auxiliary slot of every code object, and the trace. -/
structure State where
  perf_status : perf_status_t
  extra_code_index : Int
  code_arena : List code_arena_t
  trampoline_api : trampoline_api_t
  perf_map_file : Nat
  eval_frame : eval_frame_t
  co_extra : Nat → Nat
  trace : List Event

/-- Result of `py_trampoline_evaluator`: the call it returns the value of. -/
inductive eval_result
  | trampoline_call (f : Nat) (ts : Nat) (frame : PyInterpreterFrame) (throw : Int)
  | default_call (ts : Nat) (frame : PyInterpreterFrame) (throw : Int)
  deriving DecidableEq, Repr

/-- The trampoline a dispatch went through, if it went through one. -/
def eval_result.trampoline : eval_result → Option Nat
  | .trampoline_call f _ _ _ => some f
  | .default_call _ _ _ => none

/-- Append one entry to the trace. -/
def State.emit (s : State) (ev : Event) : State :=
  { s with trace := s.trace ++ [ev] }

/-- Append several entries to the trace. -/
def State.emits (s : State) (evs : List Event) : State :=
  { s with trace := s.trace ++ evs }

/-- One past the largest `size_t`. -/
def SIZE_T_MOD : Nat := 18446744073709551616

/-- The `size_t` subtraction `x - y`. -/
def size_t_sub (x y : Nat) : Nat := (x + SIZE_T_MOD - y % SIZE_T_MOD) % SIZE_T_MOD

/-- The local `mem_size` of `new_code_arena`. -/
def mem_size : Nat := 4096 * 16

/-! ## Code-object auxiliary slot -/

/-- Modelled from the spec: `_PyCode_GetExtra` is defined outside the given
sources; the descriptor exposes one auxiliary slot holding one pointer, and
reading it yields what was last stored (`NULL` when nothing was). -/
def _PyCode_GetExtra (s : State) (co : PyCodeObject) (_index : Int) : Nat :=
  s.co_extra co.co_id

/-- Modelled from the spec: `_PyCode_SetExtra` is defined outside the given
sources; it stores the pointer in the descriptor's auxiliary slot. -/
def _PyCode_SetExtra (s : State) (co : PyCodeObject) (index : Int) (extra : Nat) : State :=
  { s.emit (.set_extra co.co_id index extra) with
    co_extra := fun c => if c = co.co_id then extra else s.co_extra c }

/-! ## Default backend (perf map file) -/

/-- Lower-case hexadecimal digits of a number, as `%x` prints them. -/
def fmt_x (n : Nat) : String := String.mk (Nat.toDigits 16 n)

/-- Modelled from the spec: the C library prints `%p` in an
implementation-defined way; the address field is taken as `0x` followed by the
hexadecimal digits, and as `(nil)` for `NULL`. -/
def fmt_p (n : Nat) : String := if n = 0 then "(nil)" else "0x" ++ fmt_x n

/-- A character buffer read as a C string: the characters before the first
NUL. -/
def c_str (s : String) : String :=
  String.mk (s.data.takeWhile fun c => c != Char.ofNat 0)

/-- An argument of `fprintf`: a pointer for `%p`, an `unsigned int` for `%x`, a
character buffer for `%s`. -/
inductive printf_arg
  | ptr (p : Nat)
  | uint (n : Nat)
  | str (s : String)
  deriving DecidableEq, Repr

/-- The text one conversion specification `%d` prints for an argument; an
argument of another kind than the specification asks for prints nothing here
(the file never does that). -/
def c_convert (d : Char) (a : printf_arg) : List Char :=
  match a with
  | .ptr p => if d = 'p' then (fmt_p p).data else []
  | .uint n => if d = 'x' then (fmt_x n).data else []
  | .str s => if d = 's' then (c_str s).data else []

/-- The text `fprintf` prints for a format and its arguments: ordinary
characters are copied, each `%` takes the next character as conversion
specification and the next argument. -/
def c_format : List Char → List printf_arg → List Char
  | [], _ => []
  | c :: rest, args =>
    if c = '%' then
      match rest, args with
      | d :: rest', a :: args' => c_convert d a ++ c_format rest' args'
      | _, _ => []
    else c :: c_format rest args

/-- The function `_Py_perf_map_get_file`. -/
def _Py_perf_map_get_file (e : sys_env) (s : State) : State × Nat :=
  if s.perf_map_file ≠ 0 then (s, s.perf_map_file)
  else
    let fd := e.open_ret
    let s := s.emit (.open_file fd)
    if fd = -1 then
      ({ s.emit (.unraisable "Failed to create perf map file") with
          perf_status := .PERF_STATUS_FAILED }, 0)
    else
      let fp := e.fdopen_ret
      let s := { s.emit (.fdopen fd fp) with perf_map_file := fp }
      if fp = 0 then
        ({ (s.emit (.close fd)).emit (.unraisable "Failed to create perf map file handle") with
            perf_status := .PERF_STATUS_FAILED }, 0)
      else (s, fp)

/-- The function `_Py_perf_map_close`. -/
def _Py_perf_map_close (s : State) (state : Nat) : State :=
  if state ≠ 0 then s.emit (.fclose state)
  else { s with perf_map_file := 0, perf_status := .PERF_STATUS_NO_INIT }

/-- The function `_Py_perf_map_write_entry`.  It starts with
`assert(state != NULL)`: on a `NULL` state the function does not return (the
assertion stops the process; without it the `fprintf` on a `NULL` stream does),
which is `none`. -/
def _Py_perf_map_write_entry (s : State) (state code_addr code_size : Nat)
    (co : PyCodeObject) : Option State :=
  if state = 0 then none
  else
    match co.co_qualname with
    | none => some (s.emit (.unraisable "Failed to get qualname from code object"))
    | some entry =>
      match co.co_filename with
      | none => some (s.emit (.unraisable "Failed to get filename from code object"))
      | some filename =>
        some ((s.emit (.fprintf state
          (String.mk (c_format "%p %x py::%s:%s\n".data
            [.ptr code_addr, .uint code_size, .str entry, .str filename])))).emit
          (.fflush state))

/-! ## Calls through `trampoline_api` -/

/-- The call `trampoline_api.init_state()`. -/
def call_init_state (e : sys_env) (s : State) : State × Nat :=
  match s.trampoline_api.init_state with
  | .perf_map =>
    let r := _Py_perf_map_get_file e s
    (r.1.emit (.init_state r.2), r.2)
  | .external => (s.emit (.init_state e.init_ret), e.init_ret)

/-- The call `trampoline_api.write_state(state, addr, code_size, co)`; the
third parameter is an `unsigned int`.  When the function of this file does not
return, the process has stopped inside the call: the trace gets the entry
`abort`, and nothing the trace holds after that entry is a step of the
program. -/
def call_write_state (s : State) (state addr code_size : Nat) (co : PyCodeObject) : State :=
  let s := s.emit (.write_state state addr (code_size % 4294967296) co.co_id)
  match s.trampoline_api.write_state with
  | .perf_map =>
    match _Py_perf_map_write_entry s state addr (code_size % 4294967296) co with
    | some s' => s'
    | none => s.emit .abort
  | .external => s

/-- The call `trampoline_api.free_state(state)`. -/
def call_free_state (s : State) (state : Nat) : State :=
  let s := s.emit (.free_state state)
  match s.trampoline_api.free_state with
  | .perf_map => _Py_perf_map_close s state
  | .external => s

/-! ## Code arenas -/

/-- The function `new_code_arena`; `code_size` is the distance between the two
template symbols `_Py_trampoline_func_start` and `_Py_trampoline_func_end`.
The loop that fills the mapping is the run of `memcpy` entries.  (With
`code_size = 0` the C code divides by zero; every statement below about a
general `code_size` assumes `0 < code_size`.) -/
def new_code_arena (code_size : Nat) (e : sys_env) (s : State) : State × Int :=
  let memory := e.mmap_ret
  let s := s.emit (.mmap mem_size memory)
  if memory = 0 then
    ({ s.emit (.unraisable "Failed to create new mmap for perf trampoline") with
        perf_status := .PERF_STATUS_FAILED }, -1)
  else
    let n_copies := mem_size / code_size
    let s := s.emits ((List.range n_copies).map fun i => .memcpy (memory + i * code_size) code_size)
    let res := e.mprotect_ret
    let s := s.emit (.mprotect memory mem_size res)
    if res = -1 then
      ((s.emit (.munmap memory mem_size)).emit
        (.unraisable "Failed to set mmap for perf trampoline to PROT_READ | PROT_EXEC"), -1)
    else
      let s := s.emit (.calloc e.calloc_ret)
      if e.calloc_ret = 0 then
        ((s.emit (.munmap memory mem_size)).emit
          (.unraisable "Failed to allocate new code arena struct"), -1)
      else
        ({ s with
            code_arena :=
              { start_addr := memory, current_addr := memory, size := mem_size,
                size_left := mem_size, code_size := code_size } :: s.code_arena }, 0)

/-- The function `free_code_arenas`. -/
def free_code_arenas (s : State) : State :=
  let cur := s.code_arena
  let s := { s with code_arena := [] }
  s.emits (cur.map fun a => .munmap a.start_addr a.size)

/-- The function `code_arena_new_code`: the trampoline handed out and the arena
after the call. -/
def code_arena_new_code (a : code_arena_t) : Nat × code_arena_t :=
  (a.current_addr,
   { a with
      size_left := size_t_sub a.size_left a.code_size,
      current_addr := a.current_addr + a.code_size })

/-- The guard of `compile_trampoline`: whether it asks for a new arena. -/
def needs_new_arena (l : List code_arena_t) : Bool :=
  match l with
  | [] => true
  | a :: _ => decide (a.size_left ≤ a.code_size)

/-- The function `compile_trampoline`; `0` is the `NULL` trampoline.  The
branch for an empty list after the guard is never taken: the guard asks for a
new arena when the list is empty, and a new arena that was not pushed returns
`-1`. -/
def compile_trampoline (code_size : Nat) (e : sys_env) (s : State) : State × Nat :=
  let r := if needs_new_arena s.code_arena then new_code_arena code_size e s else (s, 0)
  if r.2 < 0 then (r.1, 0)
  else
    match r.1.code_arena with
    | [] => (r.1, 0)
    | a :: prev =>
      let t := code_arena_new_code a
      ({ r.1 with code_arena := t.2 :: prev }, t.1)

/-- The expression `code_arena->code_size`; it is evaluated only after
`compile_trampoline` returned a trampoline, when the list is not empty. -/
def active_code_size (s : State) : Nat :=
  match s.code_arena with
  | [] => 0
  | a :: _ => a.code_size

/-! ## The evaluator hook -/

/-- The statement `if (extra_code_index == -1) extra_code_index =
_PyEval_RequestCodeExtraIndex(NULL);` of `py_trampoline_evaluator`. -/
def request_extra_index (e : sys_env) (s : State) : State :=
  if s.extra_code_index = -1 then
    { s.emit (.request_index e.extra_index) with extra_code_index := e.extra_index }
  else s

/-- The function `py_trampoline_evaluator`. -/
def py_trampoline_evaluator (code_size : Nat) (e : sys_env) (s : State)
    (ts : Nat) (frame : PyInterpreterFrame) (throw : Int) : State × eval_result :=
  if s.perf_status = .PERF_STATUS_FAILED ∨ s.perf_status = .PERF_STATUS_NO_INIT then
    (s, .default_call ts frame throw)
  else
    let co := frame.f_code
    let f := _PyCode_GetExtra s co s.extra_code_index
    if f = 0 then
      let r := compile_trampoline code_size e (request_extra_index e s)
      if r.2 = 0 then (r.1, .default_call ts frame throw)
      else
        let s2 := call_write_state r.1 r.1.trampoline_api.state r.2 (active_code_size r.1) co
        let s3 := _PyCode_SetExtra s2 co s2.extra_code_index r.2
        (s3, .trampoline_call r.2 ts frame throw)
    else (s, .trampoline_call f ts frame throw)

/-! ## Life cycle -/

/-- The function `_PyIsPerfTrampolineActive`. -/
def _PyIsPerfTrampolineActive (s : State) : Int :=
  if s.eval_frame = .py_trampoline_evaluator then 1 else 0

/-- The function `_PyPerfTrampoline_SetCallbacks`; `none` is `Py_FatalError`. -/
def _PyPerfTrampoline_SetCallbacks (init_state write_state free_state : callback_t)
    (s : State) : Option (State × Int) :=
  if s.trampoline_api.state ≠ 0 then none
  else
    some ({ s with
              trampoline_api :=
                { init_state := init_state, write_state := write_state,
                  free_state := free_state, state := 0 },
              perf_status := .PERF_STATUS_OK }, 0)

/-- The function `_PyPerfTrampoline_Init`. -/
def _PyPerfTrampoline_Init (code_size : Nat) (e : sys_env) (s : State) (activate : Int) :
    State × Int :=
  match s.eval_frame with
  | .other _ =>
    (s.emit (.err_set
      "Trampoline cannot be initialized as a custom eval frame is already present"), -1)
  | _ =>
    if activate = 0 then ({ s with eval_frame := .NULL }, 0)
    else
      let s := { s with eval_frame := .py_trampoline_evaluator }
      let r := new_code_arena code_size e s
      if r.2 < 0 then (r.1, -1)
      else if r.1.trampoline_api.state = 0 then
        let i := call_init_state e r.1
        if i.2 = 0 then (i.1, -1)
        else
          ({ i.1 with
              trampoline_api := { i.1.trampoline_api with state := i.2 },
              perf_status := .PERF_STATUS_OK }, 0)
      else ({ r.1 with perf_status := .PERF_STATUS_OK }, 0)

/-- The function `_PyPerfTrampoline_Fini`. -/
def _PyPerfTrampoline_Fini (s : State) : State × Int :=
  let s := free_code_arenas s
  let s := call_free_state s s.trampoline_api.state
  (s, 0)

/-- The function `_PyPerfTrampoline_AfterFork_Child`. -/
def _PyPerfTrampoline_AfterFork_Child (s : State) : State :=
  call_free_state s s.trampoline_api.state

/-! ## Sample inputs -/

/-- The file-static variables as the loader leaves them, with the three
callbacks registered as by `_PyPerfTrampoline_SetCallbacks`. -/
def registered_state (init_state write_state free_state : callback_t) : State :=
  { perf_status := .PERF_STATUS_OK
    extra_code_index := -1
    code_arena := []
    trampoline_api :=
      { init_state := init_state, write_state := write_state, free_state := free_state,
        state := 0 }
    perf_map_file := 0
    eval_frame := .NULL
    co_extra := fun _ => 0
    trace := [] }

/-- An environment in which every call succeeds; the mapping starts at `base`. -/
def env_ok (base : Nat) : sys_env :=
  { mmap_ret := base, mprotect_ret := 0, calloc_ret := 4096, extra_index := 0,
    init_ret := 8192, open_ret := 3, fdopen_ret := 8192 }

/-- A code object named `name` of file `m.src` whose identity is `id`. -/
def sample_code (id : Nat) (name : String) : PyCodeObject :=
  { co_id := id, co_qualname := some name, co_filename := some "m.src" }

/-- A frame running `sample_code id name`. -/
def sample_frame (id : Nat) (name : String) : PyInterpreterFrame :=
  { f_code := sample_code id name }

/-! ## Trace queries -/

/-- Whether a trace entry is a call of `write_state`. -/
def Event.is_write_state : Event → Bool
  | .write_state _ _ _ _ => true
  | _ => false

/-- The calls of `write_state` in a trace, oldest first. -/
def write_calls (t : List Event) : List Event := t.filter Event.is_write_state

/-! ## Runs -/

/-- A call of one of the two functions that touch the arena list. -/
inductive arena_call
  | call_new_code_arena (e : sys_env)
  | call_compile_trampoline (e : sys_env)
  deriving DecidableEq, Repr

/-- The state after one call of `new_code_arena` or `compile_trampoline`. -/
def arena_call.run (code_size : Nat) (c : arena_call) (s : State) : State :=
  match c with
  | .call_new_code_arena e => (new_code_arena code_size e s).1
  | .call_compile_trampoline e => (compile_trampoline code_size e s).1

/-- The state after a sequence of such calls, first call first. -/
def run_arena_calls (code_size : Nat) : List arena_call → State → State
  | [], s => s
  | c :: cs, s => run_arena_calls code_size cs (c.run code_size s)

/-- Successive calls of `compile_trampoline`: the final state and the
trampolines returned, first call first. -/
def compile_all (code_size : Nat) : List sys_env → State → State × List Nat
  | [], s => (s, [])
  | e :: es, s =>
    ((compile_all code_size es (compile_trampoline code_size e s).1).1,
      (compile_trampoline code_size e s).2 ::
        (compile_all code_size es (compile_trampoline code_size e s).1).2)

/-- The arguments of one call of `py_trampoline_evaluator`, with what the
outside world answers during it. -/
structure dispatch_call where
  env : sys_env
  ts : Nat
  frame : PyInterpreterFrame
  throw : Int
  deriving DecidableEq, Repr

/-- Successive calls of `py_trampoline_evaluator`: the final state and the
results, first call first. -/
def dispatch_all (code_size : Nat) : List dispatch_call → State → State × List eval_result
  | [], s => (s, [])
  | c :: cs, s =>
    ((dispatch_all code_size cs
        (py_trampoline_evaluator code_size c.env s c.ts c.frame c.throw).1).1,
      (py_trampoline_evaluator code_size c.env s c.ts c.frame c.throw).2 ::
        (dispatch_all code_size cs
          (py_trampoline_evaluator code_size c.env s c.ts c.frame c.throw).1).2)

/-! ## Invariants -/

/-- The record `new_code_arena` pushes for a mapping at `memory`. -/
def fresh_arena (code_size memory : Nat) : code_arena_t :=
  { start_addr := memory, current_addr := memory, size := mem_size,
    size_left := mem_size, code_size := code_size }

/-- The invariant of one arena record for a given `code_size` and trace: the
record has that code size, the cursor and `size_left` move together in whole
trampolines inside a mapping that is not `NULL`, and every whole slot of the
mapping received a copy of the template. -/
def arena_sound (code_size : Nat) (t : List Event) (a : code_arena_t) : Prop :=
  a.code_size = code_size ∧ a.size_left ≤ a.size ∧
  a.current_addr = a.start_addr + (a.size - a.size_left) ∧
  (a.size - a.size_left) % a.code_size = 0 ∧
  a.start_addr ≠ 0 ∧ a.size < SIZE_T_MOD ∧
  ∀ i, i < a.size / a.code_size →
    Event.memcpy (a.start_addr + i * a.code_size) a.code_size ∈ t

/-- The invariant of the arena list: every record is sound. -/
def arenas_ok (code_size : Nat) (s : State) : Prop :=
  ∀ a ∈ s.code_arena, arena_sound code_size s.trace a

/-- Whether the address lies in `[start_addr, start_addr + size)`. -/
def in_bounds (p : Nat) (a : code_arena_t) : Bool :=
  decide (a.start_addr ≤ p ∧ p < a.start_addr + a.size)

/-- Two mappings that share no address. -/
def regions_disjoint (p n q m : Nat) : Prop := p + n ≤ q ∨ q + m ≤ p

/-- The arenas of the list share no address. -/
def arenas_disjoint (l : List code_arena_t) : Prop :=
  l.Pairwise fun a b => regions_disjoint a.start_addr a.size b.start_addr b.size

/-- The invariant of the subsystem while it hands out trampolines: every arena
record is sound, the arenas are disjoint, every cached trampoline lies below
the cursor of one arena, and no two code objects cache the same trampoline. -/
structure Inv (code_size : Nat) (s : State) : Prop where
  arenas : arenas_ok code_size s
  disjoint : arenas_disjoint s.code_arena
  cached : ∀ c, s.co_extra c ≠ 0 →
    ∃ a ∈ s.code_arena, a.start_addr ≤ s.co_extra c ∧ s.co_extra c < a.current_addr
  inj : ∀ c d, s.co_extra c ≠ 0 → s.co_extra c = s.co_extra d → c = d

/-- The three calls behind an arena creation succeed. -/
def sys_env.arena_succeeds (e : sys_env) : Prop :=
  e.mmap_ret ≠ 0 ∧ e.mprotect_ret ≠ -1 ∧ e.calloc_ret ≠ 0

/-- The mapping `mmap` would return is disjoint from every arena of the list. -/
def sys_env.fresh_for (e : sys_env) (l : List code_arena_t) : Prop :=
  ∀ a ∈ l, regions_disjoint e.mmap_ret mem_size a.start_addr a.size

/-- The state after `_PyPerfTrampoline_Init(1)` on a registered state with the
file backend, every call succeeding, the first mapping at `base`. -/
def active_state (code_size base : Nat) : State :=
  (_PyPerfTrampoline_Init code_size (env_ok base)
    (registered_state .perf_map .perf_map .perf_map) 1).1

/-- The state after one code object (`foo`, identity `7`) was dispatched in
`active_state 16384 1000000`: one arena, one cached trampoline, the backend
state handle `8192`. -/
def dispatched_state : State :=
  (py_trampoline_evaluator 16384 (env_ok 2000000) (active_state 16384 1000000) 1
    (sample_frame 7 "foo") 0).1

/-- The calls of the three callbacks in a trace, oldest first. -/
def backend_calls (t : List Event) : List Event :=
  t.filter fun ev =>
    match ev with
    | .init_state _ => true
    | .write_state _ _ _ _ => true
    | .free_state _ => true
    | _ => false

/-- The `munmap` calls in a trace, oldest first. -/
def munmap_calls (t : List Event) : List Event :=
  t.filter fun ev =>
    match ev with
    | .munmap _ _ => true
    | _ => false

/-! ## The perf map file -/

/-- The record format of the default backend as the specification words it:
the address, the code size in lower-case hexadecimal, `py::`, the qualified
name, a colon, the source file name, and the terminating newline. -/
def perf_map_line (addr size : Nat) (qualname filename : String) : String :=
  fmt_p addr ++ " " ++ fmt_x size ++ " py::" ++ qualname ++ ":" ++ filename ++ "\n"

/-- The newline character. -/
def newline : Char := Char.ofNat 10

/-- A text that is exactly one newline-terminated line: it holds one newline,
and that newline is its last character. -/
def one_line (text : String) : Prop :=
  text.data.count newline = 1 ∧ text.data.getLast? = some newline

/-- Whether a trace entry is an `fprintf`. -/
def Event.is_fprintf : Event → Bool
  | .fprintf _ _ => true
  | _ => false

/-- The `fprintf` calls in a trace, oldest first: what was appended to the
files, in order. -/
def file_writes (t : List Event) : List Event := t.filter Event.is_fprintf

/-- The slots of the cached trampolines: each lies whole below the cursor of
one arena, and the slots of two code objects do not overlap. -/
structure Slots (code_size : Nat) (s : State) : Prop where
  below : ∀ c, s.co_extra c ≠ 0 →
    ∃ a ∈ s.code_arena,
      a.start_addr ≤ s.co_extra c ∧ s.co_extra c + code_size ≤ a.current_addr
  apart : ∀ c d, c ≠ d → s.co_extra c ≠ 0 → s.co_extra d ≠ 0 →
    s.co_extra c + code_size ≤ s.co_extra d ∨ s.co_extra d + code_size ≤ s.co_extra c

/-! ## Reachable states -/

/-- A call of one of the functions through which the rest of the program
reaches the file. -/
inductive api_call
  | call_SetCallbacks (init_state write_state free_state : callback_t)
  | call_Init (e : sys_env) (activate : Int)
  | call_evaluator (e : sys_env) (ts : Nat) (frame : PyInterpreterFrame) (throw : Int)
  | call_Fini
  | call_AfterFork_Child
  deriving DecidableEq, Repr

/-- The state after one such call.  A `_PyPerfTrampoline_SetCallbacks` that ends
in `Py_FatalError` changes nothing (the process stops there). -/
def api_call.run (code_size : Nat) (c : api_call) (s : State) : State :=
  match c with
  | .call_SetCallbacks i w f =>
    match _PyPerfTrampoline_SetCallbacks i w f s with
    | some r => r.1
    | none => s
  | .call_Init e activate => (_PyPerfTrampoline_Init code_size e s activate).1
  | .call_evaluator e ts frame throw =>
    (py_trampoline_evaluator code_size e s ts frame throw).1
  | .call_Fini => (_PyPerfTrampoline_Fini s).1
  | .call_AfterFork_Child => _PyPerfTrampoline_AfterFork_Child s

/-- The state after a sequence of such calls, first call first. -/
def run_api (code_size : Nat) : List api_call → State → State
  | [], s => s
  | c :: cs, s => run_api code_size cs (c.run code_size s)

/-- Every address held in an auxiliary slot was passed to `write_state`, for
that code object, by a call recorded in the trace. -/
def all_registered (s : State) : Prop :=
  ∀ c, s.co_extra c ≠ 0 →
    ∃ state size, Event.write_state state (s.co_extra c) size c ∈ s.trace

/-- Whether a trace entry is a store into an auxiliary slot. -/
def Event.is_set_extra : Event → Bool
  | .set_extra _ _ _ => true
  | _ => false

/-- The part of a trace that the program really produced: the entries before
the first `abort`. -/
def until_abort (t : List Event) : List Event :=
  t.takeWhile fun ev => ev != Event.abort

/-- A qualified name with a NUL character in it: `fo`, NUL, `o`. -/
def name_with_nul : String := String.mk ['f', 'o', Char.ofNat 0, 'o']

/-! ## Basic facts about the trace and the state fields -/

@[simp] theorem emit_trace (s : State) (ev : Event) : (s.emit ev).trace = s.trace ++ [ev] := rfl
@[simp] theorem emit_perf_status (s : State) (ev : Event) :
    (s.emit ev).perf_status = s.perf_status := rfl
@[simp] theorem emit_extra_code_index (s : State) (ev : Event) :
    (s.emit ev).extra_code_index = s.extra_code_index := rfl
@[simp] theorem emit_code_arena (s : State) (ev : Event) :
    (s.emit ev).code_arena = s.code_arena := rfl
@[simp] theorem emit_trampoline_api (s : State) (ev : Event) :
    (s.emit ev).trampoline_api = s.trampoline_api := rfl
@[simp] theorem emit_perf_map_file (s : State) (ev : Event) :
    (s.emit ev).perf_map_file = s.perf_map_file := rfl
@[simp] theorem emit_eval_frame (s : State) (ev : Event) :
    (s.emit ev).eval_frame = s.eval_frame := rfl
@[simp] theorem emit_co_extra (s : State) (ev : Event) : (s.emit ev).co_extra = s.co_extra := rfl

@[simp] theorem emits_trace (s : State) (evs : List Event) :
    (s.emits evs).trace = s.trace ++ evs := rfl
@[simp] theorem emits_perf_status (s : State) (evs : List Event) :
    (s.emits evs).perf_status = s.perf_status := rfl
@[simp] theorem emits_extra_code_index (s : State) (evs : List Event) :
    (s.emits evs).extra_code_index = s.extra_code_index := rfl
@[simp] theorem emits_code_arena (s : State) (evs : List Event) :
    (s.emits evs).code_arena = s.code_arena := rfl
@[simp] theorem emits_trampoline_api (s : State) (evs : List Event) :
    (s.emits evs).trampoline_api = s.trampoline_api := rfl
@[simp] theorem emits_perf_map_file (s : State) (evs : List Event) :
    (s.emits evs).perf_map_file = s.perf_map_file := rfl
@[simp] theorem emits_eval_frame (s : State) (evs : List Event) :
    (s.emits evs).eval_frame = s.eval_frame := rfl
@[simp] theorem emits_co_extra (s : State) (evs : List Event) :
    (s.emits evs).co_extra = s.co_extra := rfl

@[simp] theorem write_calls_nil : write_calls [] = [] := rfl

@[simp] theorem write_calls_append (t u : List Event) :
    write_calls (t ++ u) = write_calls t ++ write_calls u := by
  simp [write_calls]

@[simp] theorem write_calls_cons (ev : Event) (t : List Event) :
    write_calls (ev :: t) = (if ev.is_write_state then [ev] else []) ++ write_calls t := by
  cases h : ev.is_write_state <;> simp [write_calls, h]

@[simp] theorem write_calls_memcpy (f : Nat → Event) (n : Nat)
    (hf : ∀ i, (f i).is_write_state = false) :
    write_calls ((List.range n).map f) = [] := by
  simp [write_calls, hf]

/-! ## What `new_code_arena` and `compile_trampoline` leave alone -/

theorem new_code_arena_co_extra (code_size : Nat) (e : sys_env) (s : State) :
    (new_code_arena code_size e s).1.co_extra = s.co_extra := by
  unfold new_code_arena
  simp only
  split_ifs <;> rfl

theorem new_code_arena_write_calls (code_size : Nat) (e : sys_env) (s : State) :
    write_calls (new_code_arena code_size e s).1.trace = write_calls s.trace := by
  unfold new_code_arena
  simp only
  split_ifs <;> simp [Event.is_write_state]

theorem new_code_arena_trampoline_api (code_size : Nat) (e : sys_env) (s : State) :
    (new_code_arena code_size e s).1.trampoline_api = s.trampoline_api := by
  unfold new_code_arena
  simp only
  split_ifs <;> rfl

theorem new_code_arena_extra_code_index (code_size : Nat) (e : sys_env) (s : State) :
    (new_code_arena code_size e s).1.extra_code_index = s.extra_code_index := by
  unfold new_code_arena
  simp only
  split_ifs <;> rfl

theorem new_code_arena_eval_frame (code_size : Nat) (e : sys_env) (s : State) :
    (new_code_arena code_size e s).1.eval_frame = s.eval_frame := by
  unfold new_code_arena
  simp only
  split_ifs <;> rfl

/-- The return value of `new_code_arena` is `0` or `-1`; on `0` the status is
untouched. -/
theorem new_code_arena_ret (code_size : Nat) (e : sys_env) (s : State) :
    ((new_code_arena code_size e s).2 = 0 ∧
        (new_code_arena code_size e s).1.perf_status = s.perf_status) ∨
      (new_code_arena code_size e s).2 = -1 := by
  unfold new_code_arena
  simp only
  split_ifs <;> simp

theorem compile_trampoline_co_extra (code_size : Nat) (e : sys_env) (s : State) :
    (compile_trampoline code_size e s).1.co_extra = s.co_extra := by
  unfold compile_trampoline
  have hr : (if needs_new_arena s.code_arena then new_code_arena code_size e s
      else (s, 0)).1.co_extra = s.co_extra := by
    split_ifs
    · exact new_code_arena_co_extra code_size e s
    · rfl
  generalize (if needs_new_arena s.code_arena then new_code_arena code_size e s
      else (s, 0)) = r at hr ⊢
  simp only
  split_ifs
  · exact hr
  · split <;> exact hr

theorem compile_trampoline_write_calls (code_size : Nat) (e : sys_env) (s : State) :
    write_calls (compile_trampoline code_size e s).1.trace = write_calls s.trace := by
  unfold compile_trampoline
  have hr : write_calls (if needs_new_arena s.code_arena then new_code_arena code_size e s
      else (s, 0)).1.trace = write_calls s.trace := by
    split_ifs
    · exact new_code_arena_write_calls code_size e s
    · rfl
  generalize (if needs_new_arena s.code_arena then new_code_arena code_size e s
      else (s, 0)) = r at hr ⊢
  simp only
  split_ifs
  · exact hr
  · split <;> exact hr

theorem compile_trampoline_trampoline_api (code_size : Nat) (e : sys_env) (s : State) :
    (compile_trampoline code_size e s).1.trampoline_api = s.trampoline_api := by
  unfold compile_trampoline
  have hr : (if needs_new_arena s.code_arena then new_code_arena code_size e s
      else (s, 0)).1.trampoline_api = s.trampoline_api := by
    split_ifs
    · exact new_code_arena_trampoline_api code_size e s
    · rfl
  generalize (if needs_new_arena s.code_arena then new_code_arena code_size e s
      else (s, 0)) = r at hr ⊢
  simp only
  split_ifs
  · exact hr
  · split <;> exact hr

theorem compile_trampoline_extra_code_index (code_size : Nat) (e : sys_env) (s : State) :
    (compile_trampoline code_size e s).1.extra_code_index = s.extra_code_index := by
  unfold compile_trampoline
  have hr : (if needs_new_arena s.code_arena then new_code_arena code_size e s
      else (s, 0)).1.extra_code_index = s.extra_code_index := by
    split_ifs
    · exact new_code_arena_extra_code_index code_size e s
    · rfl
  generalize (if needs_new_arena s.code_arena then new_code_arena code_size e s
      else (s, 0)) = r at hr ⊢
  simp only
  split_ifs
  · exact hr
  · split <;> exact hr

/-- A trampoline that is not `NULL` was handed out with the status untouched. -/
theorem compile_trampoline_perf_status (code_size : Nat) (e : sys_env) (s : State)
    (h : (compile_trampoline code_size e s).2 ≠ 0) :
    (compile_trampoline code_size e s).1.perf_status = s.perf_status := by
  unfold compile_trampoline at h ⊢
  have hr : ((if needs_new_arena s.code_arena then new_code_arena code_size e s
        else (s, 0)).2 = 0 ∧
      (if needs_new_arena s.code_arena then new_code_arena code_size e s
        else (s, 0)).1.perf_status = s.perf_status) ∨
      (if needs_new_arena s.code_arena then new_code_arena code_size e s
        else (s, 0)).2 = -1 := by
    split_ifs
    · exact new_code_arena_ret code_size e s
    · exact Or.inl ⟨rfl, rfl⟩
  generalize (if needs_new_arena s.code_arena then new_code_arena code_size e s
      else (s, 0)) = r at hr h ⊢
  simp only at h ⊢
  rcases hr with ⟨h0, hs⟩ | h1
  · rw [if_neg (by omega)] at h ⊢
    split <;> exact hs
  · rw [if_pos (by omega)] at h
    exact absurd rfl h

theorem request_extra_index_co_extra (e : sys_env) (s : State) :
    (request_extra_index e s).co_extra = s.co_extra := by
  unfold request_extra_index
  split_ifs <;> rfl

theorem request_extra_index_perf_status (e : sys_env) (s : State) :
    (request_extra_index e s).perf_status = s.perf_status := by
  unfold request_extra_index
  split_ifs <;> rfl

theorem request_extra_index_trampoline_api (e : sys_env) (s : State) :
    (request_extra_index e s).trampoline_api = s.trampoline_api := by
  unfold request_extra_index
  split_ifs <;> rfl

theorem request_extra_index_code_arena (e : sys_env) (s : State) :
    (request_extra_index e s).code_arena = s.code_arena := by
  unfold request_extra_index
  split_ifs <;> rfl

theorem request_extra_index_write_calls (e : sys_env) (s : State) :
    write_calls (request_extra_index e s).trace = write_calls s.trace := by
  unfold request_extra_index
  split_ifs <;> simp [Event.is_write_state]

/-- The two outcomes of `_Py_perf_map_write_entry`: on a `NULL` state it does
not return; otherwise it returns with a few entries added to the trace, none of
them a `write_state` call or a store into a slot, and nothing else changed. -/
theorem _Py_perf_map_write_entry_cases (s : State) (state code_addr code_size : Nat)
    (co : PyCodeObject) :
    (state = 0 ∧ _Py_perf_map_write_entry s state code_addr code_size co = none) ∨
    (state ≠ 0 ∧ ∃ evs,
      _Py_perf_map_write_entry s state code_addr code_size co = some (s.emits evs) ∧
      write_calls evs = [] ∧ evs.filter Event.is_set_extra = []) := by
  unfold _Py_perf_map_write_entry
  by_cases h0 : state = 0
  · exact Or.inl ⟨h0, by rw [if_pos h0]⟩
  · refine Or.inr ⟨h0, ?_⟩
    rw [if_neg h0]
    cases co.co_qualname with
    | none => exact ⟨[_], rfl, rfl, rfl⟩
    | some q =>
      cases co.co_filename with
      | none => exact ⟨[_], rfl, rfl, rfl⟩
      | some f =>
        refine ⟨[.fprintf state (String.mk (c_format "%p %x py::%s:%s\n".data
            [.ptr code_addr, .uint code_size, .str q, .str f])), .fflush state], ?_, rfl, rfl⟩
        simp [State.emit, State.emits]

/-- The call of `write_state`, whatever the backend: the `write_state` entry,
then entries that are neither `write_state` calls nor stores into a slot; no
other part of the state changes. -/
theorem call_write_state_cases (s : State) (state addr code_size : Nat) (co : PyCodeObject) :
    ∃ mid, call_write_state s state addr code_size co =
        (s.emit (.write_state state addr (code_size % 4294967296) co.co_id)).emits mid ∧
      write_calls mid = [] ∧ mid.filter Event.is_set_extra = [] := by
  unfold call_write_state
  simp only
  split
  · rcases _Py_perf_map_write_entry_cases
      (s.emit (.write_state state addr (code_size % 4294967296) co.co_id))
      state addr (code_size % 4294967296) co with ⟨_, hnone⟩ | ⟨_, evs, hsome, h1, h2⟩
    · rw [hnone]
      exact ⟨[.abort], rfl, rfl, rfl⟩
    · rw [hsome]
      exact ⟨evs, rfl, h1, h2⟩
  · exact ⟨[], by simp [State.emits, State.emit], rfl, rfl⟩

/-- The call of `write_state` adds exactly one `write_state` entry and leaves
the file-static variables and the auxiliary slots alone. -/
theorem call_write_state_spec (s : State) (state addr code_size : Nat) (co : PyCodeObject) :
    write_calls (call_write_state s state addr code_size co).trace
      = write_calls s.trace ++ [.write_state state addr (code_size % 4294967296) co.co_id] ∧
    (call_write_state s state addr code_size co).perf_status = s.perf_status ∧
    (call_write_state s state addr code_size co).extra_code_index = s.extra_code_index ∧
    (call_write_state s state addr code_size co).code_arena = s.code_arena ∧
    (call_write_state s state addr code_size co).trampoline_api = s.trampoline_api ∧
    (call_write_state s state addr code_size co).co_extra = s.co_extra := by
  obtain ⟨mid, h, h1, _⟩ := call_write_state_cases s state addr code_size co
  rw [h]
  simp [Event.is_write_state, h1]

/-! ## The evaluator: fallback, foreign hook, idempotence -/

/-- The evaluator on a code object without a cached trampoline, status `OK`. -/
theorem py_trampoline_evaluator_miss (code_size : Nat) (e : sys_env) (s : State)
    (ts : Nat) (frame : PyInterpreterFrame) (throw : Int)
    (hok : s.perf_status = .PERF_STATUS_OK) (hmiss : s.co_extra frame.f_code.co_id = 0) :
    py_trampoline_evaluator code_size e s ts frame throw =
      if (compile_trampoline code_size e (request_extra_index e s)).2 = 0 then
        ((compile_trampoline code_size e (request_extra_index e s)).1,
          .default_call ts frame throw)
      else
        (_PyCode_SetExtra
          (call_write_state (compile_trampoline code_size e (request_extra_index e s)).1
            (compile_trampoline code_size e (request_extra_index e s)).1.trampoline_api.state
            (compile_trampoline code_size e (request_extra_index e s)).2
            (active_code_size (compile_trampoline code_size e (request_extra_index e s)).1)
            frame.f_code)
          frame.f_code
          (call_write_state (compile_trampoline code_size e (request_extra_index e s)).1
            (compile_trampoline code_size e (request_extra_index e s)).1.trampoline_api.state
            (compile_trampoline code_size e (request_extra_index e s)).2
            (active_code_size (compile_trampoline code_size e (request_extra_index e s)).1)
            frame.f_code).extra_code_index
          (compile_trampoline code_size e (request_extra_index e s)).2,
          .trampoline_call (compile_trampoline code_size e (request_extra_index e s)).2
            ts frame throw) := by
  unfold py_trampoline_evaluator
  simp [hok, _PyCode_GetExtra, hmiss]

/-- The evaluator on a code object with a cached trampoline, status `OK`. -/
theorem py_trampoline_evaluator_hit (code_size : Nat) (e : sys_env) (s : State)
    (ts : Nat) (frame : PyInterpreterFrame) (throw : Int)
    (hok : s.perf_status = .PERF_STATUS_OK) (hhit : s.co_extra frame.f_code.co_id ≠ 0) :
    py_trampoline_evaluator code_size e s ts frame throw =
      (s, .trampoline_call (s.co_extra frame.f_code.co_id) ts frame throw) := by
  unfold py_trampoline_evaluator
  simp [hok, _PyCode_GetExtra, hhit]

/-- A miss that obtains a trampoline: what the evaluator leaves behind. -/
theorem py_trampoline_evaluator_miss_ok (code_size : Nat) (e : sys_env) (s : State)
    (ts : Nat) (frame : PyInterpreterFrame) (throw : Int)
    (hok : s.perf_status = .PERF_STATUS_OK) (hmiss : s.co_extra frame.f_code.co_id = 0)
    (hne : (compile_trampoline code_size e (request_extra_index e s)).2 ≠ 0) :
    (py_trampoline_evaluator code_size e s ts frame throw).2 =
        .trampoline_call (compile_trampoline code_size e (request_extra_index e s)).2
          ts frame throw ∧
    (py_trampoline_evaluator code_size e s ts frame throw).1.perf_status = .PERF_STATUS_OK ∧
    (py_trampoline_evaluator code_size e s ts frame throw).1.co_extra =
        (fun c => if c = frame.f_code.co_id
          then (compile_trampoline code_size e (request_extra_index e s)).2
          else s.co_extra c) ∧
    (py_trampoline_evaluator code_size e s ts frame throw).1.code_arena =
        (compile_trampoline code_size e (request_extra_index e s)).1.code_arena ∧
    (py_trampoline_evaluator code_size e s ts frame throw).1.trampoline_api =
        s.trampoline_api ∧
    write_calls (py_trampoline_evaluator code_size e s ts frame throw).1.trace =
        write_calls s.trace ++
          [.write_state s.trampoline_api.state
            (compile_trampoline code_size e (request_extra_index e s)).2
            (active_code_size (compile_trampoline code_size e (request_extra_index e s)).1
              % 4294967296)
            frame.f_code.co_id] := by
  rw [py_trampoline_evaluator_miss code_size e s ts frame throw hok hmiss, if_neg hne]
  have hc1 := compile_trampoline_perf_status code_size e (request_extra_index e s) hne
  have hc2 := compile_trampoline_co_extra code_size e (request_extra_index e s)
  have hc3 := compile_trampoline_trampoline_api code_size e (request_extra_index e s)
  have hc4 := compile_trampoline_write_calls code_size e (request_extra_index e s)
  rw [request_extra_index_perf_status] at hc1
  rw [request_extra_index_co_extra] at hc2
  rw [request_extra_index_trampoline_api] at hc3
  rw [request_extra_index_write_calls] at hc4
  generalize compile_trampoline code_size e (request_extra_index e s) = c at *
  obtain ⟨hw1, hw2, _, hw4, hw5, hw6⟩ :=
    call_write_state_spec c.1 c.1.trampoline_api.state c.2 (active_code_size c.1) frame.f_code
  generalize call_write_state c.1 c.1.trampoline_api.state c.2 (active_code_size c.1)
    frame.f_code = w at *
  refine ⟨rfl, ?_, ?_, ?_, ?_, ?_⟩
  · simp [_PyCode_SetExtra, hw2, hc1, hok]
  · simp [_PyCode_SetExtra, hw6, hc2]
  · simp [_PyCode_SetExtra, hw4]
  · simp [_PyCode_SetExtra, hw5, hc3]
  · simp [_PyCode_SetExtra, hw1, hc4, hc3, Event.is_write_state]

/-- C6: whenever `py_trampoline_evaluator` cannot obtain a trampoline it takes
the default path and touches neither the cache nor the backend.  (a) With the
status `FAILED` or `NO_INIT` it returns the call
`_PyEval_EvalFrameDefault(ts, frame, throw)` and the whole state, trace
included, is as before, so nothing was compiled, registered or stored.  (b)
With the status `OK`, no cached trampoline and `compile_trampoline` returning
`NULL`, it returns the same default call, the state is the one
`compile_trampoline` left, no `write_state` call was added to the trace and
every auxiliary slot is as before. -/
theorem py_trampoline_evaluator_degrades (code_size : Nat) (e : sys_env) (s : State)
    (ts : Nat) (frame : PyInterpreterFrame) (throw : Int) :
    ((s.perf_status = .PERF_STATUS_FAILED ∨ s.perf_status = .PERF_STATUS_NO_INIT) →
      py_trampoline_evaluator code_size e s ts frame throw
        = (s, .default_call ts frame throw)) ∧
    (s.perf_status = .PERF_STATUS_OK →
      _PyCode_GetExtra s frame.f_code s.extra_code_index = 0 →
      (compile_trampoline code_size e (request_extra_index e s)).2 = 0 →
      (py_trampoline_evaluator code_size e s ts frame throw).2
          = .default_call ts frame throw ∧
        (py_trampoline_evaluator code_size e s ts frame throw).1
          = (compile_trampoline code_size e (request_extra_index e s)).1 ∧
        write_calls (py_trampoline_evaluator code_size e s ts frame throw).1.trace
          = write_calls s.trace ∧
        (py_trampoline_evaluator code_size e s ts frame throw).1.co_extra = s.co_extra ∧
        _PyCode_GetExtra (py_trampoline_evaluator code_size e s ts frame throw).1
          frame.f_code
          (py_trampoline_evaluator code_size e s ts frame throw).1.extra_code_index = 0) := by
  constructor
  · intro h
    unfold py_trampoline_evaluator
    rw [if_pos h]
  · intro hok hmiss hnull
    have hmiss' : s.co_extra frame.f_code.co_id = 0 := hmiss
    rw [py_trampoline_evaluator_miss code_size e s ts frame throw hok hmiss', if_pos hnull]
    refine ⟨rfl, rfl, ?_, ?_, ?_⟩
    · rw [compile_trampoline_write_calls, request_extra_index_write_calls]
    · rw [compile_trampoline_co_extra, request_extra_index_co_extra]
    · show (compile_trampoline code_size e (request_extra_index e s)).1.co_extra
        frame.f_code.co_id = 0
      rw [compile_trampoline_co_extra, request_extra_index_co_extra]
      exact hmiss'

/-- C6, at a concrete input: status `FAILED` for part (a), and for part (b) a
state without arena where `mmap` returns `NULL`. -/
theorem py_trampoline_evaluator_degrades_witness :
    py_trampoline_evaluator 16384 (env_ok 1000000)
        { registered_state .external .external .external with
          perf_status := .PERF_STATUS_FAILED } 1 (sample_frame 7 "foo") 0
      = ({ registered_state .external .external .external with
          perf_status := .PERF_STATUS_FAILED }, .default_call 1 (sample_frame 7 "foo") 0) ∧
    (py_trampoline_evaluator 16384 { env_ok 0 with mmap_ret := 0 }
        (registered_state .external .external .external) 1 (sample_frame 7 "foo") 0).2
      = .default_call 1 (sample_frame 7 "foo") 0 ∧
    write_calls (py_trampoline_evaluator 16384 { env_ok 0 with mmap_ret := 0 }
        (registered_state .external .external .external) 1 (sample_frame 7 "foo") 0).1.trace
      = [] :=
  ⟨(py_trampoline_evaluator_degrades 16384 (env_ok 1000000)
      { registered_state .external .external .external with
        perf_status := .PERF_STATUS_FAILED } 1 (sample_frame 7 "foo") 0).1 (Or.inl rfl),
   ((py_trampoline_evaluator_degrades 16384 { env_ok 0 with mmap_ret := 0 }
      (registered_state .external .external .external) 1 (sample_frame 7 "foo") 0).2
      rfl rfl (by decide)).1,
   ((py_trampoline_evaluator_degrades 16384 { env_ok 0 with mmap_ret := 0 }
      (registered_state .external .external .external) 1 (sample_frame 7 "foo") 0).2
      rfl rfl (by decide)).2.2.1⟩

/-- C10: for either value of `activate`, when the interpreter's `eval_frame`
hook is neither `NULL` nor `py_trampoline_evaluator`, `_PyPerfTrampoline_Init`
returns `-1` and leaves `eval_frame`, the arena list, `perf_status`, the
backend record (callbacks and state), `extra_code_index`, `perf_map_file` and
every auxiliary slot as they were; the only thing it does is set the
`RuntimeError` message, so `init_state` (like every other outside call) is not
called. -/
theorem Init_rejects_foreign_hook (code_size : Nat) (e : sys_env) (s : State)
    (activate : Int) (h1 : s.eval_frame ≠ .NULL)
    (h2 : s.eval_frame ≠ .py_trampoline_evaluator) :
    (_PyPerfTrampoline_Init code_size e s activate).2 = -1 ∧
    (_PyPerfTrampoline_Init code_size e s activate).1.eval_frame = s.eval_frame ∧
    (_PyPerfTrampoline_Init code_size e s activate).1.code_arena = s.code_arena ∧
    (_PyPerfTrampoline_Init code_size e s activate).1.perf_status = s.perf_status ∧
    (_PyPerfTrampoline_Init code_size e s activate).1.trampoline_api = s.trampoline_api ∧
    (_PyPerfTrampoline_Init code_size e s activate).1.extra_code_index
      = s.extra_code_index ∧
    (_PyPerfTrampoline_Init code_size e s activate).1.perf_map_file = s.perf_map_file ∧
    (_PyPerfTrampoline_Init code_size e s activate).1.co_extra = s.co_extra ∧
    (_PyPerfTrampoline_Init code_size e s activate).1.trace = s.trace ++
      [.err_set "Trampoline cannot be initialized as a custom eval frame is already present"]
    := by
  unfold _PyPerfTrampoline_Init
  cases hf : s.eval_frame with
  | NULL => exact absurd hf h1
  | py_trampoline_evaluator => exact absurd hf h2
  | other fn => simp [hf]

/-- C10, at a concrete input: a foreign hook `other 77`, `activate = 1`. -/
theorem Init_rejects_foreign_hook_witness :
    (_PyPerfTrampoline_Init 16384 (env_ok 1000000)
        { registered_state .perf_map .perf_map .perf_map with eval_frame := .other 77 } 1).2
      = -1 ∧
    (_PyPerfTrampoline_Init 16384 (env_ok 1000000)
        { registered_state .perf_map .perf_map .perf_map with eval_frame := .other 77 }
        1).1.eval_frame = .other 77 ∧
    (_PyPerfTrampoline_Init 16384 (env_ok 1000000)
        { registered_state .perf_map .perf_map .perf_map with eval_frame := .other 77 }
        1).1.code_arena = [] :=
  have h := Init_rejects_foreign_hook 16384 (env_ok 1000000)
    { registered_state .perf_map .perf_map .perf_map with eval_frame := .other 77 } 1
    (by simp) (by simp)
  ⟨h.1, h.2.1, h.2.2.1⟩

/-- C2: with the status `OK`, dispatching one code object twice, the first
dispatch obtaining a trampoline, goes through the same trampoline address both
times; the second dispatch reads that address from the code object's auxiliary
slot and leaves the whole state as the first left it (no `write_state` call,
same arena list with the same cursor and `size_left`); and when the code object
had no trampoline before, the two dispatches together add exactly one
`write_state` call, the one registering that address for that code object. -/
theorem dispatch_twice_reuses_trampoline (code_size : Nat) (e1 e2 : sys_env) (s : State)
    (ts1 ts2 : Nat) (frame1 frame2 : PyInterpreterFrame) (throw1 throw2 : Int)
    (hok : s.perf_status = .PERF_STATUS_OK)
    (hsame : frame2.f_code.co_id = frame1.f_code.co_id)
    (halloc : (py_trampoline_evaluator code_size e1 s ts1 frame1 throw1).2.trampoline
      ≠ none) :
    (py_trampoline_evaluator code_size e2
        (py_trampoline_evaluator code_size e1 s ts1 frame1 throw1).1
        ts2 frame2 throw2).2.trampoline
      = (py_trampoline_evaluator code_size e1 s ts1 frame1 throw1).2.trampoline ∧
    (py_trampoline_evaluator code_size e2
        (py_trampoline_evaluator code_size e1 s ts1 frame1 throw1).1
        ts2 frame2 throw2).2.trampoline
      = some (_PyCode_GetExtra (py_trampoline_evaluator code_size e1 s ts1 frame1 throw1).1
          frame2.f_code
          (py_trampoline_evaluator code_size e1 s ts1 frame1 throw1).1.extra_code_index) ∧
    (py_trampoline_evaluator code_size e2
        (py_trampoline_evaluator code_size e1 s ts1 frame1 throw1).1
        ts2 frame2 throw2).1
      = (py_trampoline_evaluator code_size e1 s ts1 frame1 throw1).1 ∧
    (_PyCode_GetExtra s frame1.f_code s.extra_code_index = 0 →
      ∃ state addr size,
        (py_trampoline_evaluator code_size e1 s ts1 frame1 throw1).2.trampoline
          = some addr ∧
        write_calls (py_trampoline_evaluator code_size e2
          (py_trampoline_evaluator code_size e1 s ts1 frame1 throw1).1
          ts2 frame2 throw2).1.trace
        = write_calls s.trace ++ [.write_state state addr size frame1.f_code.co_id]) := by
  by_cases hmiss : s.co_extra frame1.f_code.co_id = 0
  · have hne : (compile_trampoline code_size e1 (request_extra_index e1 s)).2 ≠ 0 := by
      intro h0
      apply halloc
      rw [py_trampoline_evaluator_miss code_size e1 s ts1 frame1 throw1 hok hmiss, if_pos h0]
      rfl
    obtain ⟨h2, hst, hex, _, _, hwc⟩ :=
      py_trampoline_evaluator_miss_ok code_size e1 s ts1 frame1 throw1 hok hmiss hne
    have hslot : (py_trampoline_evaluator code_size e1 s ts1 frame1 throw1).1.co_extra
        frame2.f_code.co_id = (compile_trampoline code_size e1 (request_extra_index e1 s)).2 := by
      rw [hex, hsame]
      simp
    have hhit : (py_trampoline_evaluator code_size e1 s ts1 frame1 throw1).1.co_extra
        frame2.f_code.co_id ≠ 0 := by
      rw [hslot]
      exact hne
    rw [py_trampoline_evaluator_hit code_size e2 _ ts2 frame2 throw2 hst hhit]
    refine ⟨?_, rfl, rfl, ?_⟩
    · rw [h2, hslot]
      rfl
    · intro _
      exact ⟨_, _, _, by rw [h2]; rfl, hwc⟩
  · have h1 := py_trampoline_evaluator_hit code_size e1 s ts1 frame1 throw1 hok hmiss
    rw [h1]
    have hhit : s.co_extra frame2.f_code.co_id ≠ 0 := by
      rw [hsame]
      exact hmiss
    rw [py_trampoline_evaluator_hit code_size e2 s ts2 frame2 throw2 hok hhit]
    refine ⟨?_, rfl, rfl, ?_⟩
    · show some _ = some _
      rw [hsame]
    · intro h0
      exact absurd h0 hmiss

/-- C2, at a concrete input: a registered state without arena, one code object
`foo` dispatched twice. -/
theorem dispatch_twice_reuses_trampoline_witness :
    (py_trampoline_evaluator 16384 (env_ok 2000000)
        (py_trampoline_evaluator 16384 (env_ok 1000000)
          (registered_state .external .external .external) 1 (sample_frame 7 "foo") 0).1
        2 (sample_frame 7 "foo") 0).2.trampoline
      = (py_trampoline_evaluator 16384 (env_ok 1000000)
          (registered_state .external .external .external) 1
          (sample_frame 7 "foo") 0).2.trampoline ∧
    (py_trampoline_evaluator 16384 (env_ok 1000000)
          (registered_state .external .external .external) 1
          (sample_frame 7 "foo") 0).2.trampoline = some 1000000 :=
  ⟨(dispatch_twice_reuses_trampoline 16384 (env_ok 1000000) (env_ok 2000000)
      (registered_state .external .external .external) 1 2
      (sample_frame 7 "foo") (sample_frame 7 "foo") 0 0 rfl rfl (by decide)).1,
    by decide⟩

/-! ## Places where the code departs from the specification -/

/-- C4, evaluated on the code: an arena of `65536 = 4 * 16384` bytes, created
by `_PyPerfTrampoline_Init(1)` at `1000000`, serves three requests; the fourth
request (not the fifth) already creates a new arena at `5000000`, and the old
arena is left with `size_left = 16384`, one whole slot that is never issued. -/
theorem compile_trampoline_skips_last_slot :
    (compile_all 16384 [env_ok 2000000, env_ok 3000000, env_ok 4000000, env_ok 5000000]
        (active_state 16384 1000000)).2 = [1000000, 1016384, 1032768, 5000000] ∧
    ((compile_all 16384 [env_ok 2000000, env_ok 3000000, env_ok 4000000, env_ok 5000000]
        (active_state 16384 1000000)).1.code_arena.map fun a => (a.start_addr, a.size_left))
      = [(5000000, 49152), (1000000, 16384)] := by
  decide

/-- C5, evaluated on the code: when `mprotect` fails, and when
`PyMem_RawCalloc` fails, `new_code_arena` returns `-1` and leaves the arena
list as it was, but `perf_status` stays `PERF_STATUS_OK`; only the `mmap`
branch sets `PERF_STATUS_FAILED`. -/
theorem new_code_arena_failure_status :
    ((new_code_arena 16384 { env_ok 2000000 with mprotect_ret := -1 }
        (active_state 16384 1000000)).2 = -1 ∧
      (new_code_arena 16384 { env_ok 2000000 with mprotect_ret := -1 }
        (active_state 16384 1000000)).1.code_arena = (active_state 16384 1000000).code_arena ∧
      (new_code_arena 16384 { env_ok 2000000 with mprotect_ret := -1 }
        (active_state 16384 1000000)).1.perf_status = .PERF_STATUS_OK) ∧
    ((new_code_arena 16384 { env_ok 2000000 with calloc_ret := 0 }
        (active_state 16384 1000000)).2 = -1 ∧
      (new_code_arena 16384 { env_ok 2000000 with calloc_ret := 0 }
        (active_state 16384 1000000)).1.code_arena = (active_state 16384 1000000).code_arena ∧
      (new_code_arena 16384 { env_ok 2000000 with calloc_ret := 0 }
        (active_state 16384 1000000)).1.perf_status = .PERF_STATUS_OK) ∧
    ((new_code_arena 16384 { env_ok 2000000 with mmap_ret := 0 }
        (active_state 16384 1000000)).2 = -1 ∧
      (new_code_arena 16384 { env_ok 2000000 with mmap_ret := 0 }
        (active_state 16384 1000000)).1.code_arena = (active_state 16384 1000000).code_arena ∧
      (new_code_arena 16384 { env_ok 2000000 with mmap_ret := 0 }
        (active_state 16384 1000000)).1.perf_status = .PERF_STATUS_FAILED) := by
  decide

/-- C7, evaluated on the code: `_PyPerfTrampoline_Fini` on `dispatched_state`
unmaps the one arena, empties the list and calls `free_state` once, but
`perf_status` stays `PERF_STATUS_OK` and `trampoline_api.state` keeps the
closed handle `8192`; the next dispatch of a new code object passes that handle
to `write_state`. -/
theorem Fini_keeps_status_and_handle :
    (_PyPerfTrampoline_Fini dispatched_state).1.code_arena = [] ∧
    munmap_calls (_PyPerfTrampoline_Fini dispatched_state).1.trace
      = [.munmap 1000000 65536] ∧
    (_PyPerfTrampoline_Fini dispatched_state).1.perf_status = .PERF_STATUS_OK ∧
    (_PyPerfTrampoline_Fini dispatched_state).1.trampoline_api.state = 8192 ∧
    backend_calls (py_trampoline_evaluator 16384 (env_ok 3000000)
        (_PyPerfTrampoline_Fini dispatched_state).1 1 (sample_frame 8 "bar") 0).1.trace
      = [.init_state 8192, .write_state 8192 1000000 16384 7, .free_state 8192,
          .write_state 8192 3000000 16384 8] := by
  decide

/-- C8, evaluated on the code: `_PyPerfTrampoline_AfterFork_Child` on
`dispatched_state` calls `free_state` on the handle `8192` and leaves the arena
list, `extra_code_index` and the cached trampoline alone, but the handle stays
in `trampoline_api.state` and the status stays `PERF_STATUS_OK`: a later
`_PyPerfTrampoline_Init(1)` does not call `init_state`, and the next dispatch of
a new code object passes the freed handle to `write_state`. -/
theorem AfterFork_Child_keeps_handle :
    (_PyPerfTrampoline_AfterFork_Child dispatched_state).code_arena
      = dispatched_state.code_arena ∧
    (_PyPerfTrampoline_AfterFork_Child dispatched_state).extra_code_index
      = dispatched_state.extra_code_index ∧
    (_PyPerfTrampoline_AfterFork_Child dispatched_state).co_extra 7 = 1000000 ∧
    (_PyPerfTrampoline_AfterFork_Child dispatched_state).trampoline_api.state = 8192 ∧
    (_PyPerfTrampoline_AfterFork_Child dispatched_state).perf_status = .PERF_STATUS_OK ∧
    backend_calls (py_trampoline_evaluator 16384 (env_ok 3000000)
        (_PyPerfTrampoline_AfterFork_Child dispatched_state) 1 (sample_frame 8 "bar") 0).1.trace
      = [.init_state 8192, .write_state 8192 1000000 16384 7, .free_state 8192,
          .write_state 8192 1016384 16384 8] ∧
    backend_calls (py_trampoline_evaluator 16384 (env_ok 3000000)
        (_PyPerfTrampoline_Init 16384 (env_ok 4000000)
          (_PyPerfTrampoline_AfterFork_Child dispatched_state) 1).1
        1 (sample_frame 8 "bar") 0).1.trace
      = [.init_state 8192, .write_state 8192 1000000 16384 7, .free_state 8192,
          .write_state 8192 4000000 16384 8] := by
  decide

/-- C9, evaluated on the code: `_PyPerfTrampoline_Init(1)` returns `-1` with
`perf_status` still `PERF_STATUS_OK` and the hook installed (1) when `mprotect`
fails inside `new_code_arena`, and (2) when an `init_state` defined outside the
file returns `NULL`; with callbacks defined outside the file, which take a
`NULL` state, the next call of the hook then compiles a trampoline, registers
it and returns the call through it instead of taking the default path.  (3)
With the callbacks of this file `mprotect` failing has the same outcome for
`_PyPerfTrampoline_Init`, the backend state stays `NULL`, and the next call of
the hook again compiles a trampoline and calls `write_state`, with that `NULL`
state, where `_Py_perf_map_write_entry` stops the process: up to that point
`write_state` is the only callback called. -/
theorem Init_failure_keeps_status :
    ((_PyPerfTrampoline_Init 16384 { env_ok 1000000 with mprotect_ret := -1 }
        (registered_state .external .external .external) 1).2 = -1 ∧
      (_PyPerfTrampoline_Init 16384 { env_ok 1000000 with mprotect_ret := -1 }
        (registered_state .external .external .external) 1).1.perf_status
          = .PERF_STATUS_OK ∧
      (_PyPerfTrampoline_Init 16384 { env_ok 1000000 with mprotect_ret := -1 }
        (registered_state .external .external .external) 1).1.eval_frame
          = .py_trampoline_evaluator ∧
      (py_trampoline_evaluator 16384 (env_ok 2000000)
        (_PyPerfTrampoline_Init 16384 { env_ok 1000000 with mprotect_ret := -1 }
          (registered_state .external .external .external) 1).1
        1 (sample_frame 7 "foo") 0).2 = .trampoline_call 2000000 1 (sample_frame 7 "foo") 0 ∧
      backend_calls (py_trampoline_evaluator 16384 (env_ok 2000000)
        (_PyPerfTrampoline_Init 16384 { env_ok 1000000 with mprotect_ret := -1 }
          (registered_state .external .external .external) 1).1
        1 (sample_frame 7 "foo") 0).1.trace = [.write_state 0 2000000 16384 7]) ∧
    ((_PyPerfTrampoline_Init 16384 { env_ok 1000000 with init_ret := 0 }
        (registered_state .external .external .external) 1).2 = -1 ∧
      (_PyPerfTrampoline_Init 16384 { env_ok 1000000 with init_ret := 0 }
        (registered_state .external .external .external) 1).1.perf_status
          = .PERF_STATUS_OK ∧
      (_PyPerfTrampoline_Init 16384 { env_ok 1000000 with init_ret := 0 }
        (registered_state .external .external .external) 1).1.eval_frame
          = .py_trampoline_evaluator ∧
      (py_trampoline_evaluator 16384 (env_ok 2000000)
        (_PyPerfTrampoline_Init 16384 { env_ok 1000000 with init_ret := 0 }
          (registered_state .external .external .external) 1).1
        1 (sample_frame 7 "foo") 0).2 = .trampoline_call 1000000 1 (sample_frame 7 "foo") 0 ∧
      backend_calls (py_trampoline_evaluator 16384 (env_ok 2000000)
        (_PyPerfTrampoline_Init 16384 { env_ok 1000000 with init_ret := 0 }
          (registered_state .external .external .external) 1).1
        1 (sample_frame 7 "foo") 0).1.trace
        = [.init_state 0, .write_state 0 1000000 16384 7]) ∧
    ((_PyPerfTrampoline_Init 16384 { env_ok 1000000 with mprotect_ret := -1 }
        (registered_state .perf_map .perf_map .perf_map) 1).2 = -1 ∧
      (_PyPerfTrampoline_Init 16384 { env_ok 1000000 with mprotect_ret := -1 }
        (registered_state .perf_map .perf_map .perf_map) 1).1.perf_status
          = .PERF_STATUS_OK ∧
      (_PyPerfTrampoline_Init 16384 { env_ok 1000000 with mprotect_ret := -1 }
        (registered_state .perf_map .perf_map .perf_map) 1).1.eval_frame
          = .py_trampoline_evaluator ∧
      (_PyPerfTrampoline_Init 16384 { env_ok 1000000 with mprotect_ret := -1 }
        (registered_state .perf_map .perf_map .perf_map) 1).1.trampoline_api.state = 0 ∧
      Event.abort ∈ (py_trampoline_evaluator 16384 (env_ok 2000000)
        (_PyPerfTrampoline_Init 16384 { env_ok 1000000 with mprotect_ret := -1 }
          (registered_state .perf_map .perf_map .perf_map) 1).1
        1 (sample_frame 7 "foo") 0).1.trace ∧
      backend_calls (until_abort (py_trampoline_evaluator 16384 (env_ok 2000000)
        (_PyPerfTrampoline_Init 16384 { env_ok 1000000 with mprotect_ret := -1 }
          (registered_state .perf_map .perf_map .perf_map) 1).1
        1 (sample_frame 7 "foo") 0).1.trace) = [.write_state 0 2000000 16384 7]) := by
  decide

/-! ## The arena invariant -/

theorem size_t_sub_of_le (x y : Nat) (hy : y ≤ x) (hx : x < SIZE_T_MOD) :
    size_t_sub x y = x - y := by
  unfold size_t_sub SIZE_T_MOD at *
  omega

/-- What `new_code_arena` does to the arena list and the trace: it either
pushes the fresh record, after filling the mapping with copies, or leaves the
list alone and returns `-1`; the old trace stays a part of the new one. -/
theorem new_code_arena_cases (code_size : Nat) (e : sys_env) (s : State) :
    (((new_code_arena code_size e s).2 = 0 ∧ e.mmap_ret ≠ 0 ∧
        (new_code_arena code_size e s).1.code_arena
          = fresh_arena code_size e.mmap_ret :: s.code_arena ∧
        ∀ i, i < mem_size / code_size →
          Event.memcpy (e.mmap_ret + i * code_size) code_size
            ∈ (new_code_arena code_size e s).1.trace) ∨
      ((new_code_arena code_size e s).2 = -1 ∧
        (new_code_arena code_size e s).1.code_arena = s.code_arena)) ∧
    ∀ ev ∈ s.trace, ev ∈ (new_code_arena code_size e s).1.trace := by
  unfold new_code_arena
  simp only
  split_ifs with h1 h2 h3
  · simp only [emit_trace, emit_code_arena, List.mem_append]
    exact ⟨Or.inr ⟨trivial, trivial⟩, fun ev hev => Or.inl (Or.inl hev)⟩
  · simp only [emit_trace, emits_trace, emit_code_arena, emits_code_arena, List.mem_append]
    exact ⟨Or.inr ⟨trivial, trivial⟩,
      fun ev hev => Or.inl (Or.inl (Or.inl (Or.inl (Or.inl hev))))⟩
  · simp only [emit_trace, emits_trace, emit_code_arena, emits_code_arena, List.mem_append]
    exact ⟨Or.inr ⟨trivial, trivial⟩,
      fun ev hev => Or.inl (Or.inl (Or.inl (Or.inl (Or.inl (Or.inl hev)))))⟩
  · refine ⟨Or.inl ⟨rfl, h1, rfl, ?_⟩, ?_⟩
    · intro i hi
      simp only [emit_trace, emits_trace, List.mem_append, List.mem_map, List.mem_range]
      exact Or.inl (Or.inl (Or.inr ⟨i, hi, rfl⟩))
    · intro ev hev
      simp only [emit_trace, emits_trace, List.mem_append]
      exact Or.inl (Or.inl (Or.inl (Or.inl hev)))

theorem fresh_arena_sound (code_size memory : Nat) (hm : memory ≠ 0) (t : List Event)
    (hfill : ∀ i, i < mem_size / code_size →
      Event.memcpy (memory + i * code_size) code_size ∈ t) :
    arena_sound code_size t (fresh_arena code_size memory) := by
  refine ⟨rfl, le_refl _, ?_, ?_, hm, ?_, hfill⟩
  · simp [fresh_arena]
  · simp [fresh_arena]
  · simp [fresh_arena, mem_size, SIZE_T_MOD]

theorem arena_sound_mono (code_size : Nat) (t u : List Event) (a : code_arena_t)
    (hsub : ∀ ev ∈ t, ev ∈ u) (h : arena_sound code_size t a) : arena_sound code_size u a := by
  obtain ⟨h1, h2, h3, h4, h5, h6, h7⟩ := h
  exact ⟨h1, h2, h3, h4, h5, h6, fun i hi => hsub _ (h7 i hi)⟩

theorem new_code_arena_arenas_ok (code_size : Nat) (e : sys_env) (s : State)
    (h : arenas_ok code_size s) : arenas_ok code_size (new_code_arena code_size e s).1 := by
  obtain ⟨hc, hsub⟩ := new_code_arena_cases code_size e s
  intro a ha
  rcases hc with ⟨_, hm, hl, hfill⟩ | ⟨_, hl⟩
  · rw [hl] at ha
    rcases List.mem_cons.mp ha with rfl | ha
    · exact fresh_arena_sound code_size e.mmap_ret hm _ hfill
    · exact arena_sound_mono code_size _ _ a hsub (h a ha)
  · rw [hl] at ha
    exact arena_sound_mono code_size _ _ a hsub (h a ha)

/-- One trampoline taken from a sound arena that still has room for it: the
arena stays sound, and the slot handed out is a whole, filled slot of it. -/
theorem code_arena_new_code_sound (code_size : Nat) (t : List Event) (a : code_arena_t)
    (hpos : 0 < code_size) (h : arena_sound code_size t a) (hroom : code_size ≤ a.size_left) :
    arena_sound code_size t (code_arena_new_code a).2 ∧
    (code_arena_new_code a).1 = a.current_addr ∧
    (code_arena_new_code a).2 =
      { a with current_addr := a.current_addr + code_size,
               size_left := a.size_left - code_size } ∧
    a.start_addr ≤ a.current_addr ∧
    (a.current_addr - a.start_addr) % code_size = 0 ∧
    a.current_addr + code_size ≤ a.start_addr + a.size ∧
    Event.memcpy a.current_addr code_size ∈ t := by
  obtain ⟨h1, h2, h3, h4, h5, h6, h7⟩ := h
  have hsub : size_t_sub a.size_left a.code_size = a.size_left - code_size := by
    rw [h1]
    exact size_t_sub_of_le _ _ hroom (by omega)
  have hnew : (code_arena_new_code a).2 =
      { a with current_addr := a.current_addr + code_size,
               size_left := a.size_left - code_size } := by
    simp only [code_arena_new_code, hsub]
    rw [h1]
  rw [h1] at h4 h7
  have hdvd : code_size ∣ a.size - a.size_left := Nat.dvd_of_mod_eq_zero h4
  have hdvd2 : code_size ∣ a.size - (a.size_left - code_size) := by
    have : a.size - (a.size_left - code_size) = (a.size - a.size_left) + code_size := by omega
    rw [this]
    exact Dvd.dvd.add hdvd (dvd_refl _)
  refine ⟨?_, rfl, hnew, by omega, ?_, by omega, ?_⟩
  · rw [hnew]
    refine ⟨h1, ?_, ?_, ?_, h5, h6, ?_⟩
    · show a.size_left - code_size ≤ a.size
      omega
    · show a.current_addr + code_size = a.start_addr + (a.size - (a.size_left - code_size))
      omega
    · show (a.size - (a.size_left - code_size)) % a.code_size = 0
      rw [h1]
      exact Nat.mod_eq_zero_of_dvd hdvd2
    · show ∀ i, i < a.size / a.code_size →
        Event.memcpy (a.start_addr + i * a.code_size) a.code_size ∈ t
      rw [h1]
      exact h7
  · have : a.current_addr - a.start_addr = a.size - a.size_left := by omega
    rw [this]
    exact h4
  · obtain ⟨j, hj⟩ := hdvd
    have hlt : j < a.size / code_size := by
      rw [Nat.lt_iff_add_one_le, Nat.le_div_iff_mul_le hpos]
      have : (j + 1) * code_size = code_size * j + code_size := by ring
      omega
    have := h7 j hlt
    have haddr : a.start_addr + j * code_size = a.current_addr := by
      rw [h3, hj]
      ring
    rw [haddr] at this
    exact this

/-- A successful `compile_trampoline` on a sound arena list: the request is
served by the head arena when it has more than one slot of room, otherwise by
a freshly pushed arena; the return value is the cursor of the serving arena and
the new head is that arena after `code_arena_new_code`. -/
theorem compile_trampoline_serves (code_size : Nat) (hle : code_size ≤ mem_size)
    (e : sys_env) (s : State) (h : arenas_ok code_size s)
    (hne : (compile_trampoline code_size e s).2 ≠ 0) :
    ∃ a0 prev,
      (a0 :: prev = s.code_arena ∨
        (a0 = fresh_arena code_size e.mmap_ret ∧ prev = s.code_arena ∧ e.mmap_ret ≠ 0)) ∧
      arena_sound code_size (compile_trampoline code_size e s).1.trace a0 ∧
      code_size ≤ a0.size_left ∧
      (compile_trampoline code_size e s).2 = a0.current_addr ∧
      (compile_trampoline code_size e s).1.code_arena = (code_arena_new_code a0).2 :: prev ∧
      (∀ ev ∈ s.trace, ev ∈ (compile_trampoline code_size e s).1.trace) := by
  unfold compile_trampoline at hne ⊢
  by_cases hn : needs_new_arena s.code_arena = true
  · simp only [hn, if_true] at hne ⊢
    obtain ⟨hc, hsub⟩ := new_code_arena_cases code_size e s
    generalize new_code_arena code_size e s = r at *
    rcases hc with ⟨h0, hm, hl, hfill⟩ | ⟨h1, _⟩
    · rw [if_neg (by omega)] at hne ⊢
      rw [hl] at hne ⊢
      refine ⟨fresh_arena code_size e.mmap_ret, s.code_arena, Or.inr ⟨rfl, rfl, hm⟩,
        fresh_arena_sound code_size e.mmap_ret hm _ hfill, ?_, rfl, rfl, hsub⟩
      exact hle
    · rw [if_pos (by omega)] at hne
      exact absurd rfl hne
  · have hn' : needs_new_arena s.code_arena = false := by
      cases hb : needs_new_arena s.code_arena
      · rfl
      · exact absurd hb hn
    simp only [hn', Bool.false_eq_true, if_false] at hne ⊢
    rw [if_neg (by omega)] at hne ⊢
    cases hl : s.code_arena with
    | nil =>
      rw [hl] at hn'
      simp [needs_new_arena] at hn'
    | cons a prev =>
      rw [hl] at hn'
      simp only [needs_new_arena, decide_eq_false_iff_not, not_le] at hn'
      have hs := h a (by rw [hl]; exact List.mem_cons_self a prev)
      have hcs : a.code_size = code_size := hs.1
      refine ⟨a, prev, Or.inl rfl, hs, by omega, rfl, rfl, fun ev hev => hev⟩

theorem compile_trampoline_arenas_ok (code_size : Nat) (hpos : 0 < code_size)
    (hle : code_size ≤ mem_size) (e : sys_env) (s : State) (h : arenas_ok code_size s) :
    arenas_ok code_size (compile_trampoline code_size e s).1 := by
  by_cases hne : (compile_trampoline code_size e s).2 = 0
  · unfold compile_trampoline at hne ⊢
    have hr : arenas_ok code_size (if needs_new_arena s.code_arena
        then new_code_arena code_size e s else (s, 0)).1 := by
      split_ifs
      · exact new_code_arena_arenas_ok code_size e s h
      · exact h
    have hcur : ∀ a ∈ (if needs_new_arena s.code_arena
        then new_code_arena code_size e s else (s, 0)).1.code_arena, a.current_addr ≠ 0 := by
      intro a ha
      obtain ⟨_, _, h3, _, h5, _, _⟩ := hr a ha
      omega
    generalize (if needs_new_arena s.code_arena
        then new_code_arena code_size e s else (s, 0)) = r at *
    simp only at hne ⊢
    split_ifs at hne ⊢ with hlt
    · exact hr
    · cases hl : r.1.code_arena with
      | nil =>
        simp only [hl]
        exact hr
      | cons a prev =>
        simp only [hl] at hne
        exact absurd hne (hcur a (by rw [hl]; exact List.mem_cons_self a prev))
  · obtain ⟨a0, prev, hfrom, hs, hroom, _, hl, hsub⟩ :=
      compile_trampoline_serves code_size hle e s h hne
    intro a ha
    rw [hl] at ha
    rcases List.mem_cons.mp ha with rfl | ha
    · exact (code_arena_new_code_sound code_size _ a0 hpos hs hroom).1
    · have hmem : a ∈ s.code_arena := by
        rcases hfrom with hfrom | ⟨_, hfrom, _⟩
        · rw [← hfrom]
          exact List.mem_cons_of_mem a0 ha
        · rw [← hfrom]
          exact ha
      exact arena_sound_mono code_size _ _ a hsub (h a hmem)

theorem run_arena_calls_arenas_ok (code_size : Nat) (hpos : 0 < code_size)
    (hle : code_size ≤ mem_size) (calls : List arena_call) :
    ∀ s, arenas_ok code_size s → arenas_ok code_size (run_arena_calls code_size calls s) := by
  induction calls with
  | nil => intro s h; exact h
  | cons c cs ih =>
    intro s h
    apply ih
    cases c with
    | call_new_code_arena e => exact new_code_arena_arenas_ok code_size e s h
    | call_compile_trampoline e =>
      exact compile_trampoline_arenas_ok code_size hpos hle e s h

/-- C3: the arena invariant.  Take any sequence of `new_code_arena` and
`compile_trampoline` calls from an empty arena list, with
`0 < code_size ≤ size` (`size` is the constant `mem_size`).  Every arena in the
list then has `size_left ≤ size` and
`current_addr = start_addr + (size - size_left)`.  Every further
`compile_trampoline` call that returns a trampoline is served by one arena
`a0`, the head of the list or, when the guard asks for it, the arena just
pushed for the mapping `mmap` returned; it returns the cursor of `a0` as it was
before `code_arena_new_code` advanced it, and the new head is `a0` with the
cursor advanced by exactly `code_size` (and `size_left` lowered by as much).
The returned address is at least `start_addr`, a multiple of `code_size` away
from it, its whole slot lies inside `[start_addr, start_addr + size)`, and
`new_code_arena` copied the template to exactly that address. -/
theorem arena_invariant (code_size : Nat) (hpos : 0 < code_size)
    (hle : code_size ≤ mem_size) (s0 : State) (hs0 : s0.code_arena = [])
    (calls : List arena_call) :
    (∀ a ∈ (run_arena_calls code_size calls s0).code_arena,
      a.size_left ≤ a.size ∧ a.current_addr = a.start_addr + (a.size - a.size_left)) ∧
    (∀ e, (compile_trampoline code_size e (run_arena_calls code_size calls s0)).2 ≠ 0 →
      ∃ a0 prev,
        (a0 :: prev = (run_arena_calls code_size calls s0).code_arena ∨
          (a0 = fresh_arena code_size e.mmap_ret ∧
            prev = (run_arena_calls code_size calls s0).code_arena)) ∧
        (compile_trampoline code_size e (run_arena_calls code_size calls s0)).2
          = a0.current_addr ∧
        (compile_trampoline code_size e (run_arena_calls code_size calls s0)).1.code_arena
          = { a0 with current_addr := a0.current_addr + code_size,
                      size_left := a0.size_left - code_size } :: prev ∧
        a0.start_addr ≤ a0.current_addr ∧
        (a0.current_addr - a0.start_addr) % code_size = 0 ∧
        a0.current_addr + code_size ≤ a0.start_addr + a0.size ∧
        Event.memcpy a0.current_addr code_size
          ∈ (compile_trampoline code_size e (run_arena_calls code_size calls s0)).1.trace)
    := by
  have h0 : arenas_ok code_size s0 := by
    intro a ha
    rw [hs0] at ha
    exact absurd ha (List.not_mem_nil a)
  have hrun := run_arena_calls_arenas_ok code_size hpos hle calls s0 h0
  refine ⟨fun a ha => ⟨(hrun a ha).2.1, (hrun a ha).2.2.1⟩, ?_⟩
  intro e hne
  obtain ⟨a0, prev, hfrom, hs, hroom, hret, hl, _⟩ :=
    compile_trampoline_serves code_size hle e _ hrun hne
  obtain ⟨_, _, hnew, hb1, hb2, hb3, hb4⟩ :=
    code_arena_new_code_sound code_size _ a0 hpos hs hroom
  refine ⟨a0, prev, ?_, hret, ?_, hb1, hb2, hb3, hb4⟩
  · rcases hfrom with hfrom | ⟨h1, h2, _⟩
    · exact Or.inl hfrom
    · exact Or.inr ⟨h1, h2⟩
  · rw [hl, hnew]

/-- C3, at a concrete input: `code_size = 16384`, a registered state without
arena, then one `new_code_arena` and two `compile_trampoline` calls. -/
theorem arena_invariant_witness :
    (0 < 16384 ∧ 16384 ≤ mem_size) ∧
    (∀ a ∈ (run_arena_calls 16384
        [.call_new_code_arena (env_ok 1000000), .call_compile_trampoline (env_ok 2000000),
          .call_compile_trampoline (env_ok 3000000)]
        (registered_state .external .external .external)).code_arena,
      a.size_left ≤ a.size ∧ a.current_addr = a.start_addr + (a.size - a.size_left)) ∧
    (run_arena_calls 16384
        [.call_new_code_arena (env_ok 1000000), .call_compile_trampoline (env_ok 2000000),
          .call_compile_trampoline (env_ok 3000000)]
        (registered_state .external .external .external)).code_arena
      = [{ start_addr := 1000000, current_addr := 1032768, size := 65536,
           size_left := 32768, code_size := 16384 }] :=
  ⟨by decide,
    (arena_invariant 16384 (by decide) (by decide)
      (registered_state .external .external .external) rfl
      [.call_new_code_arena (env_ok 1000000), .call_compile_trampoline (env_ok 2000000),
        .call_compile_trampoline (env_ok 3000000)]).1,
    by decide⟩

/-! ## Distinct trampolines for distinct code objects -/

theorem new_code_arena_succeeds (code_size : Nat) (e : sys_env) (s : State)
    (he : e.arena_succeeds) : (new_code_arena code_size e s).2 = 0 := by
  obtain ⟨h1, h2, h3⟩ := he
  unfold new_code_arena
  simp [h1, h2, h3]

theorem compile_trampoline_succeeds (code_size : Nat)
    (e : sys_env) (s : State) (h : arenas_ok code_size s) (he : e.arena_succeeds) :
    (compile_trampoline code_size e s).2 ≠ 0 := by
  unfold compile_trampoline
  by_cases hn : needs_new_arena s.code_arena = true
  · simp only [hn, if_true]
    have h0 := new_code_arena_succeeds code_size e s he
    obtain ⟨hc, _⟩ := new_code_arena_cases code_size e s
    generalize new_code_arena code_size e s = r at *
    rcases hc with ⟨_, hm, hl, _⟩ | ⟨h1, _⟩
    · rw [if_neg (by omega), hl]
      exact hm
    · omega
  · have hn' : needs_new_arena s.code_arena = false := by
      cases hb : needs_new_arena s.code_arena
      · rfl
      · exact absurd hb hn
    simp only [hn', Bool.false_eq_true, if_false]
    rw [if_neg (by omega)]
    cases hl : s.code_arena with
    | nil =>
      rw [hl] at hn'
      simp [needs_new_arena] at hn'
    | cons a prev =>
      obtain ⟨_, _, h3, _, h5, _, _⟩ := h a (by rw [hl]; exact List.mem_cons_self a prev)
      show a.current_addr ≠ 0
      omega

theorem request_extra_index_trace (e : sys_env) (s : State) :
    ∀ ev ∈ s.trace, ev ∈ (request_extra_index e s).trace := by
  intro ev hev
  unfold request_extra_index
  split_ifs
  · simp [hev]
  · exact hev

theorem call_write_state_trace (s : State) (state addr code_size : Nat) (co : PyCodeObject) :
    ∀ ev ∈ s.trace, ev ∈ (call_write_state s state addr code_size co).trace := by
  intro ev hev
  obtain ⟨mid, h, _, _⟩ := call_write_state_cases s state addr code_size co
  rw [h]
  simp [hev]

/-- A miss that obtains a trampoline keeps every earlier trace entry and every
entry `compile_trampoline` added. -/
theorem py_trampoline_evaluator_miss_trace (code_size : Nat) (e : sys_env) (s : State)
    (ts : Nat) (frame : PyInterpreterFrame) (throw : Int)
    (hok : s.perf_status = .PERF_STATUS_OK) (hmiss : s.co_extra frame.f_code.co_id = 0)
    (hne : (compile_trampoline code_size e (request_extra_index e s)).2 ≠ 0) :
    ∀ ev ∈ (compile_trampoline code_size e (request_extra_index e s)).1.trace,
      ev ∈ (py_trampoline_evaluator code_size e s ts frame throw).1.trace := by
  intro ev hev
  rw [py_trampoline_evaluator_miss code_size e s ts frame throw hok hmiss, if_neg hne]
  simp only [_PyCode_SetExtra, emit_trace, List.mem_append]
  exact Or.inl (call_write_state_trace _ _ _ _ _ ev hev)

theorem request_extra_index_arenas_ok (code_size : Nat) (e : sys_env) (s : State)
    (h : arenas_ok code_size s) : arenas_ok code_size (request_extra_index e s) := by
  intro a ha
  rw [request_extra_index_code_arena] at ha
  exact arena_sound_mono code_size _ _ a (request_extra_index_trace e s) (h a ha)

/-- In a list of disjoint arenas an address lies within the bounds of at most
one arena: if it lies in one of them, exactly one. -/
theorem in_exactly_one_arena (p : Nat) (l : List code_arena_t) (hd : arenas_disjoint l)
    (a : code_arena_t) (ha : a ∈ l) (hp : in_bounds p a = true) :
    (l.filter (in_bounds p)).length = 1 := by
  induction l with
  | nil => exact absurd ha (List.not_mem_nil a)
  | cons b l ih =>
    obtain ⟨hb, hl⟩ := List.pairwise_cons.mp hd
    have hout : ∀ x y : code_arena_t, regions_disjoint x.start_addr x.size y.start_addr y.size →
        in_bounds p x = true → in_bounds p y = false := by
      intro x y hxy hx
      simp only [in_bounds, decide_eq_true_eq, decide_eq_false_iff_not, regions_disjoint] at *
      omega
    rcases List.mem_cons.mp ha with rfl | ha'
    · have hnone : l.filter (in_bounds p) = [] := by
        rw [List.filter_eq_nil_iff]
        intro y hy
        rw [hout a y (hb y hy) hp]
        simp
      rw [List.filter_cons_of_pos hp, hnone]
      rfl
    · have hbout : in_bounds p b = false := by
        cases hq : in_bounds p b
        · rfl
        · have := hout b a (hb a ha') hq
          rw [hp] at this
          exact absurd this (by simp)
      rw [List.filter_cons_of_neg (by simp [hbout])]
      exact ih hl ha'

/-- The invariant survives handing out the cursor of `a0`, the head arena or
a fresh arena disjoint from the others, to a code object without trampoline. -/
theorem Inv_after_alloc (code_size : Nat) (hpos : 0 < code_size) (s s' : State)
    (hinv : Inv code_size s) (m : Nat) (a0 : code_arena_t) (prev : List code_arena_t)
    (hfrom : a0 :: prev = s.code_arena ∨
      (a0 = fresh_arena code_size m ∧ prev = s.code_arena ∧
        ∀ a ∈ s.code_arena, regions_disjoint m mem_size a.start_addr a.size))
    (hs0 : arena_sound code_size s'.trace a0) (hroom : code_size ≤ a0.size_left)
    (harenas : arenas_ok code_size s')
    (hl : s'.code_arena = (code_arena_new_code a0).2 :: prev)
    (co : Nat)
    (hex : s'.co_extra = fun c => if c = co then a0.current_addr else s.co_extra c) :
    Inv code_size s' := by
  obtain ⟨_, _, hnew, hb1, _, hb3, _⟩ :=
    code_arena_new_code_sound code_size _ a0 hpos hs0 hroom
  have hstart : (code_arena_new_code a0).2.start_addr = a0.start_addr := by rw [hnew]
  have hsize : (code_arena_new_code a0).2.size = a0.size := by rw [hnew]
  have hcur : (code_arena_new_code a0).2.current_addr = a0.current_addr + code_size := by
    rw [hnew]
  have hcur0 : a0.current_addr ≠ 0 := by
    obtain ⟨_, _, _, _, h5, _, _⟩ := hs0
    omega
  -- the arenas of the old list keep below their end
  have hend : ∀ a ∈ s.code_arena, a.current_addr ≤ a.start_addr + a.size := by
    intro a ha
    obtain ⟨_, _, h3, _, _, _, _⟩ := hinv.arenas a ha
    omega
  -- `a0` is disjoint from every arena of `prev`
  have hdis : ∀ b ∈ prev, regions_disjoint a0.start_addr a0.size b.start_addr b.size := by
    intro b hb
    rcases hfrom with hfrom | ⟨h1, h2, h3⟩
    · have := hinv.disjoint
      rw [← hfrom] at this
      exact (List.pairwise_cons.mp this).1 b hb
    · rw [h1]
      exact h3 b (by rw [← h2]; exact hb)
  have hprev : ∀ b ∈ prev, b ∈ s.code_arena := by
    intro b hb
    rcases hfrom with hfrom | ⟨_, h2, _⟩
    · rw [← hfrom]
      exact List.mem_cons_of_mem a0 hb
    · rw [← h2]
      exact hb
  have hprevdis : arenas_disjoint prev := by
    rcases hfrom with hfrom | ⟨_, h2, _⟩
    · have := hinv.disjoint
      rw [← hfrom] at this
      exact (List.pairwise_cons.mp this).2
    · rw [h2]
      exact hinv.disjoint
  -- an address cached before lies in an old arena, below its cursor
  have hold : ∀ d, s.co_extra d ≠ 0 →
      (a0.start_addr ≤ s.co_extra d ∧ s.co_extra d < a0.current_addr) ∨
      ∃ b ∈ prev, b.start_addr ≤ s.co_extra d ∧ s.co_extra d < b.current_addr := by
    intro d hd
    obtain ⟨a, ha, h1, h2⟩ := hinv.cached d hd
    rcases hfrom with hfrom | ⟨_, hp, _⟩
    · rw [← hfrom] at ha
      rcases List.mem_cons.mp ha with rfl | ha
      · exact Or.inl ⟨h1, h2⟩
      · exact Or.inr ⟨a, ha, h1, h2⟩
    · exact Or.inr ⟨a, by rw [hp]; exact ha, h1, h2⟩
  have hnew_addr : ∀ d, s.co_extra d ≠ 0 → s.co_extra d ≠ a0.current_addr := by
    intro d hd
    rcases hold d hd with ⟨_, h2⟩ | ⟨b, hb, h1, h2⟩
    · omega
    · have h3 := hdis b hb
      have h4 := hend b (hprev b hb)
      unfold regions_disjoint at h3
      omega
  refine ⟨harenas, ?_, ?_, ?_⟩
  · rw [hl]
    refine List.pairwise_cons.mpr ⟨?_, hprevdis⟩
    intro b hb
    rw [hstart, hsize]
    exact hdis b hb
  · intro c hc
    rw [hex] at hc ⊢
    simp only at hc ⊢
    by_cases hco : c = co
    · rw [if_pos hco]
      refine ⟨(code_arena_new_code a0).2, by rw [hl]; exact List.mem_cons_self _ _, ?_, ?_⟩
      · rw [hstart]
        exact hb1
      · rw [hcur]
        omega
    · rw [if_neg hco] at hc ⊢
      rcases hold c hc with ⟨h1, h2⟩ | ⟨b, hb, h1, h2⟩
      · refine ⟨(code_arena_new_code a0).2, by rw [hl]; exact List.mem_cons_self _ _, ?_, ?_⟩
        · rw [hstart]
          exact h1
        · rw [hcur]
          omega
      · exact ⟨b, by rw [hl]; exact List.mem_cons_of_mem _ hb, h1, h2⟩
  · intro c d hc hcd
    rw [hex] at hc hcd
    simp only at hc hcd
    by_cases hco : c = co
    · by_cases hdo : d = co
      · rw [hco, hdo]
      · rw [if_pos hco, if_neg hdo] at hcd
        have hd0 : s.co_extra d ≠ 0 := by
          rw [← hcd]
          exact hcur0
        exact absurd hcd.symm (hnew_addr d hd0)
    · rw [if_neg hco] at hc hcd
      by_cases hdo : d = co
      · rw [if_pos hdo] at hcd
        exact absurd hcd (hnew_addr c hc)
      · rw [if_neg hdo] at hcd
        exact hinv.inj c d hc hcd

/-- One dispatch under status `OK` with a succeeding, fresh environment: the
invariant and the status survive, the code object ends up with a cached
trampoline, which is the one the dispatch went through, earlier cache entries
are untouched, and every arena is an old one or the one just mapped. -/
theorem py_trampoline_evaluator_step (code_size : Nat) (hpos : 0 < code_size)
    (hle : code_size ≤ mem_size) (e : sys_env) (s : State)
    (ts : Nat) (frame : PyInterpreterFrame) (throw : Int)
    (hinv : Inv code_size s) (hok : s.perf_status = .PERF_STATUS_OK)
    (he : e.arena_succeeds) (hfresh : e.fresh_for s.code_arena) :
    Inv code_size (py_trampoline_evaluator code_size e s ts frame throw).1 ∧
    (py_trampoline_evaluator code_size e s ts frame throw).1.perf_status = .PERF_STATUS_OK ∧
    (py_trampoline_evaluator code_size e s ts frame throw).1.co_extra frame.f_code.co_id
      ≠ 0 ∧
    (py_trampoline_evaluator code_size e s ts frame throw).2.trampoline =
      some ((py_trampoline_evaluator code_size e s ts frame throw).1.co_extra
        frame.f_code.co_id) ∧
    (∀ c, s.co_extra c ≠ 0 →
      (py_trampoline_evaluator code_size e s ts frame throw).1.co_extra c = s.co_extra c) ∧
    (∀ a ∈ (py_trampoline_evaluator code_size e s ts frame throw).1.code_arena,
      (∃ b ∈ s.code_arena, a.start_addr = b.start_addr ∧ a.size = b.size) ∨
      (a.start_addr = e.mmap_ret ∧ a.size = mem_size)) := by
  by_cases hmiss : s.co_extra frame.f_code.co_id = 0
  · have h1 := request_extra_index_arenas_ok code_size e s hinv.arenas
    have hne := compile_trampoline_succeeds code_size e _ h1 he
    obtain ⟨a0, prev, hfrom, hs, hroom, hret, hl, _⟩ :=
      compile_trampoline_serves code_size hle e _ h1 hne
    have hc := compile_trampoline_arenas_ok code_size hpos hle e _ h1
    obtain ⟨h2, hst, hex, hca, _, _⟩ :=
      py_trampoline_evaluator_miss_ok code_size e s ts frame throw hok hmiss hne
    have htr := py_trampoline_evaluator_miss_trace code_size e s ts frame throw hok hmiss hne
    rw [request_extra_index_code_arena] at hfrom
    rw [hret] at hex h2
    have hl' : (py_trampoline_evaluator code_size e s ts frame throw).1.code_arena
        = (code_arena_new_code a0).2 :: prev := by rw [hca, hl]
    have hfrom' : a0 :: prev = s.code_arena ∨
        (a0 = fresh_arena code_size e.mmap_ret ∧ prev = s.code_arena ∧
          ∀ a ∈ s.code_arena, regions_disjoint e.mmap_ret mem_size a.start_addr a.size) := by
      rcases hfrom with hfrom | ⟨h3, h4, _⟩
      · exact Or.inl hfrom
      · exact Or.inr ⟨h3, h4, hfresh⟩
    have harenas : arenas_ok code_size
        (py_trampoline_evaluator code_size e s ts frame throw).1 := by
      intro a ha
      rw [hca] at ha
      exact arena_sound_mono code_size _ _ a htr (hc a ha)
    have hinv' := Inv_after_alloc code_size hpos s _ hinv e.mmap_ret a0 prev hfrom'
      (arena_sound_mono code_size _ _ a0 htr hs) hroom harenas hl' frame.f_code.co_id hex
    have hcur0 : a0.current_addr ≠ 0 := by
      obtain ⟨_, _, _, _, h5, _, _⟩ := hs
      omega
    obtain ⟨_, _, hnew, _, _, _, _⟩ := code_arena_new_code_sound code_size _ a0 hpos hs hroom
    refine ⟨hinv', hst, ?_, ?_, ?_, ?_⟩
    · rw [hex]
      simp only [if_true]
      exact hcur0
    · rw [h2, hex]
      simp [eval_result.trampoline]
    · intro c hc0
      rw [hex]
      have : c ≠ frame.f_code.co_id := by
        intro h
        rw [h] at hc0
        exact hc0 hmiss
      simp [this]
    · intro a ha
      rw [hl'] at ha
      rcases List.mem_cons.mp ha with rfl | ha
      · rw [hnew]
        rcases hfrom' with hfrom' | ⟨h3, _, _⟩
        · exact Or.inl ⟨a0, by rw [← hfrom']; exact List.mem_cons_self _ _, rfl, rfl⟩
        · rw [h3]
          exact Or.inr ⟨rfl, rfl⟩
      · refine Or.inl ⟨a, ?_, rfl, rfl⟩
        rcases hfrom' with hfrom' | ⟨_, h4, _⟩
        · rw [← hfrom']
          exact List.mem_cons_of_mem _ ha
        · rw [← h4]
          exact ha
  · rw [py_trampoline_evaluator_hit code_size e s ts frame throw hok hmiss]
    exact ⟨hinv, hok, hmiss, rfl, fun _ _ => rfl, fun a ha => Or.inl ⟨a, ha, rfl, rfl⟩⟩

theorem regions_disjoint_symm (p n q m : Nat) (h : regions_disjoint p n q m) :
    regions_disjoint q m p n := by
  unfold regions_disjoint at *
  omega

/-- A sequence of dispatches under status `OK`, every arena creation
succeeding on mappings disjoint from the arenas and from one another: the
invariant survives, every dispatch went through the trampoline its code object
has cached at the end, and earlier cache entries are untouched. -/
theorem dispatch_all_spec (code_size : Nat) (hpos : 0 < code_size)
    (hle : code_size ≤ mem_size) (calls : List dispatch_call) :
    ∀ s, Inv code_size s → s.perf_status = .PERF_STATUS_OK →
      (∀ c ∈ calls, c.env.arena_succeeds) →
      (∀ c ∈ calls, c.env.fresh_for s.code_arena) →
      calls.Pairwise (fun c d =>
        regions_disjoint c.env.mmap_ret mem_size d.env.mmap_ret mem_size) →
      Inv code_size (dispatch_all code_size calls s).1 ∧
      (dispatch_all code_size calls s).2.map eval_result.trampoline =
        calls.map (fun c =>
          some ((dispatch_all code_size calls s).1.co_extra c.frame.f_code.co_id)) ∧
      (∀ c ∈ calls, (dispatch_all code_size calls s).1.co_extra c.frame.f_code.co_id ≠ 0) ∧
      (∀ c, s.co_extra c ≠ 0 → (dispatch_all code_size calls s).1.co_extra c = s.co_extra c)
    := by
  induction calls with
  | nil =>
    intro s hinv _ _ _ _
    exact ⟨hinv, rfl, fun c hc => absurd hc (List.not_mem_nil c), fun _ _ => rfl⟩
  | cons c cs ih =>
    intro s hinv hok hsucc hfresh hpair
    obtain ⟨hcd, hpair'⟩ := List.pairwise_cons.mp hpair
    obtain ⟨hinv1, hok1, hnz, hres, hkeep, hprov⟩ :=
      py_trampoline_evaluator_step code_size hpos hle c.env s c.ts c.frame c.throw hinv hok
        (hsucc c (List.mem_cons_self c cs)) (hfresh c (List.mem_cons_self c cs))
    have hfresh1 : ∀ d ∈ cs, d.env.fresh_for
        (py_trampoline_evaluator code_size c.env s c.ts c.frame c.throw).1.code_arena := by
      intro d hd a ha
      rcases hprov a ha with ⟨b, hb, h1, h2⟩ | ⟨h1, h2⟩
      · rw [h1, h2]
        exact hfresh d (List.mem_cons_of_mem c hd) b hb
      · rw [h1, h2]
        exact regions_disjoint_symm _ _ _ _ (hcd d hd)
    obtain ⟨hinv2, hmap, hnz2, hkeep2⟩ :=
      ih _ hinv1 hok1 (fun d hd => hsucc d (List.mem_cons_of_mem c hd)) hfresh1 hpair'
    refine ⟨hinv2, ?_, ?_, ?_⟩
    · simp only [dispatch_all, List.map_cons]
      rw [hmap, hres, hkeep2 _ hnz]
    · intro d hd
      rcases List.mem_cons.mp hd with rfl | hd
      · show (dispatch_all code_size cs _).1.co_extra d.frame.f_code.co_id ≠ 0
        rw [hkeep2 _ hnz]
        exact hnz
      · exact hnz2 d hd
    · intro d hd
      show (dispatch_all code_size cs _).1.co_extra d = s.co_extra d
      have h1 := hkeep d hd
      rw [hkeep2 d (by rw [h1]; exact hd), h1]

/-- A state without arena and without cached trampoline satisfies the
invariant. -/
theorem Inv_of_empty (code_size : Nat) (s : State) (ha : s.code_arena = [])
    (hc : ∀ c, s.co_extra c = 0) : Inv code_size s := by
  refine ⟨?_, ?_, ?_, ?_⟩
  · intro a h
    rw [ha] at h
    exact absurd h (List.not_mem_nil a)
  · rw [ha]
    exact List.Pairwise.nil
  · intro c h
    exact absurd (hc c) h
  · intro c d h
    exact absurd (hc c) h

/-- C1: take a state that satisfies the invariant `Inv` (sound, disjoint
arenas; cached trampolines issued by them, no two alike) with status
`PERF_STATUS_OK`, and dispatch any sequence of pairwise distinct code objects
through `py_trampoline_evaluator`, every arena creation succeeding on a mapping
disjoint from the arenas and from the other mappings, `0 < code_size ≤ size`.
Then every dispatch goes through a trampoline, the addresses are pairwise
distinct, also when an arena runs out on the way, and each address lies within
`[start_addr, start_addr + size)` of exactly one arena of the final list. -/
theorem distinct_code_objects_distinct_trampolines (code_size : Nat) (hpos : 0 < code_size)
    (hle : code_size ≤ mem_size) (s : State) (hinv : Inv code_size s)
    (hok : s.perf_status = .PERF_STATUS_OK) (calls : List dispatch_call)
    (hsucc : ∀ c ∈ calls, c.env.arena_succeeds)
    (hfresh : ∀ c ∈ calls, c.env.fresh_for s.code_arena)
    (hpair : calls.Pairwise (fun c d =>
      regions_disjoint c.env.mmap_ret mem_size d.env.mmap_ret mem_size))
    (hdistinct : (calls.map fun c => c.frame.f_code.co_id).Nodup) :
    ∃ addrs : List Nat,
      (dispatch_all code_size calls s).2.map eval_result.trampoline = addrs.map some ∧
      addrs.length = calls.length ∧
      addrs.Nodup ∧
      ∀ p ∈ addrs,
        ((dispatch_all code_size calls s).1.code_arena.filter (in_bounds p)).length = 1 := by
  obtain ⟨hinv', hmap, hnz, _⟩ :=
    dispatch_all_spec code_size hpos hle calls s hinv hok hsucc hfresh hpair
  refine ⟨(calls.map fun c => c.frame.f_code.co_id).map
    (dispatch_all code_size calls s).1.co_extra, ?_, ?_, ?_, ?_⟩
  · rw [hmap]
    simp [List.map_map, Function.comp_def]
  · simp
  · refine List.Nodup.map_on ?_ hdistinct
    intro x hx y _ hxy
    obtain ⟨c, hc, rfl⟩ := List.mem_map.mp hx
    exact hinv'.inj _ _ (hnz c hc) hxy
  · intro p hp
    obtain ⟨x, hx, rfl⟩ := List.mem_map.mp hp
    obtain ⟨c, hc, rfl⟩ := List.mem_map.mp hx
    obtain ⟨a, ha, h1, h2⟩ := hinv'.cached _ (hnz c hc)
    refine in_exactly_one_arena _ _ hinv'.disjoint a ha ?_
    obtain ⟨_, _, h3, _, _, _, _⟩ := hinv'.arenas a ha
    simp only [in_bounds, decide_eq_true_eq]
    omega

/-- C1, at a concrete input: four code objects dispatched from a registered
state without arena, `code_size = 16384`; the first arena serves three of them
and the fourth needs a new arena. -/
theorem distinct_code_objects_distinct_trampolines_witness :
    (dispatch_all 16384
        [⟨env_ok 1000000, 1, sample_frame 7 "foo", 0⟩,
         ⟨env_ok 2000000, 1, sample_frame 8 "bar", 0⟩,
         ⟨env_ok 3000000, 1, sample_frame 9 "baz", 0⟩,
         ⟨env_ok 4000000, 1, sample_frame 10 "qux", 0⟩]
        (registered_state .external .external .external)).2.map eval_result.trampoline
      = [some 1000000, some 1016384, some 1032768, some 4000000] ∧
    ∃ addrs : List Nat,
      (dispatch_all 16384
        [⟨env_ok 1000000, 1, sample_frame 7 "foo", 0⟩,
         ⟨env_ok 2000000, 1, sample_frame 8 "bar", 0⟩,
         ⟨env_ok 3000000, 1, sample_frame 9 "baz", 0⟩,
         ⟨env_ok 4000000, 1, sample_frame 10 "qux", 0⟩]
        (registered_state .external .external .external)).2.map eval_result.trampoline
        = addrs.map some ∧
      addrs.length = 4 ∧
      addrs.Nodup ∧
      ∀ p ∈ addrs,
        ((dispatch_all 16384
          [⟨env_ok 1000000, 1, sample_frame 7 "foo", 0⟩,
           ⟨env_ok 2000000, 1, sample_frame 8 "bar", 0⟩,
           ⟨env_ok 3000000, 1, sample_frame 9 "baz", 0⟩,
           ⟨env_ok 4000000, 1, sample_frame 10 "qux", 0⟩]
          (registered_state .external .external .external)).1.code_arena.filter
            (in_bounds p)).length = 1 :=
  ⟨by decide,
    distinct_code_objects_distinct_trampolines 16384 (by decide) (by decide)
      (registered_state .external .external .external)
      (Inv_of_empty 16384 _ rfl (fun _ => rfl)) rfl
      [⟨env_ok 1000000, 1, sample_frame 7 "foo", 0⟩,
       ⟨env_ok 2000000, 1, sample_frame 8 "bar", 0⟩,
       ⟨env_ok 3000000, 1, sample_frame 9 "baz", 0⟩,
       ⟨env_ok 4000000, 1, sample_frame 10 "qux", 0⟩]
      (by simp [sys_env.arena_succeeds, env_ok])
      (by simp [sys_env.fresh_for, registered_state])
      (by simp [regions_disjoint, env_ok, mem_size])
      (by decide)⟩

/-! ## The invariant is established by the life-cycle functions -/

/-- The invariant only reads the arena list, the auxiliary slots and the
`memcpy` entries of the trace. -/
theorem Inv_congr (code_size : Nat) (s s' : State) (h : Inv code_size s)
    (ha : s'.code_arena = s.code_arena) (hc : s'.co_extra = s.co_extra)
    (ht : ∀ ev ∈ s.trace, ev ∈ s'.trace) : Inv code_size s' := by
  refine ⟨?_, ?_, ?_, ?_⟩
  · intro a hmem
    rw [ha] at hmem
    exact arena_sound_mono code_size _ _ a ht (h.arenas a hmem)
  · rw [ha]
    exact h.disjoint
  · rw [ha, hc]
    exact h.cached
  · rw [hc]
    exact h.inj

theorem new_code_arena_Inv (code_size : Nat) (e : sys_env) (s : State)
    (h : Inv code_size s) (hfresh : e.fresh_for s.code_arena) :
    Inv code_size (new_code_arena code_size e s).1 := by
  have hok := new_code_arena_arenas_ok code_size e s h.arenas
  have hco := new_code_arena_co_extra code_size e s
  obtain ⟨hc, _⟩ := new_code_arena_cases code_size e s
  rcases hc with ⟨_, _, hl, _⟩ | ⟨_, hl⟩
  · refine ⟨hok, ?_, ?_, ?_⟩
    · rw [hl]
      exact List.pairwise_cons.mpr ⟨fun b hb => hfresh b hb, h.disjoint⟩
    · intro c hc0
      rw [hco] at hc0 ⊢
      obtain ⟨a, ha, h1, h2⟩ := h.cached c hc0
      exact ⟨a, by rw [hl]; exact List.mem_cons_of_mem _ ha, h1, h2⟩
    · rw [hco]
      exact h.inj
  · refine ⟨hok, ?_, ?_, ?_⟩
    · rw [hl]
      exact h.disjoint
    · rw [hl, hco]
      exact h.cached
    · rw [hco]
      exact h.inj

theorem call_init_state_frame (e : sys_env) (s : State) :
    (call_init_state e s).1.code_arena = s.code_arena ∧
    (call_init_state e s).1.co_extra = s.co_extra ∧
    ∀ ev ∈ s.trace, ev ∈ (call_init_state e s).1.trace := by
  unfold call_init_state
  split
  · unfold _Py_perf_map_get_file
    simp only
    split_ifs <;> simp_all
  · simp_all

/-- `_PyPerfTrampoline_Init` keeps the invariant when the mapping it obtains is
disjoint from the arenas already there. -/
theorem Init_Inv (code_size : Nat) (e : sys_env) (s : State) (activate : Int)
    (h : Inv code_size s) (hfresh : e.fresh_for s.code_arena) :
    Inv code_size (_PyPerfTrampoline_Init code_size e s activate).1 := by
  have hbase : ∀ f : eval_frame_t, Inv code_size
      (new_code_arena code_size e { s with eval_frame := f }).1 :=
    fun f => new_code_arena_Inv code_size e _
      (Inv_congr code_size s _ h rfl rfl (fun _ hev => hev)) hfresh
  have hinit : ∀ f : eval_frame_t, Inv code_size
      (call_init_state e (new_code_arena code_size e { s with eval_frame := f }).1).1 := by
    intro f
    obtain ⟨h1, h2, h3⟩ :=
      call_init_state_frame e (new_code_arena code_size e { s with eval_frame := f }).1
    exact Inv_congr code_size _ _ (hbase f) h1 h2 h3
  unfold _PyPerfTrampoline_Init
  split
  · exact Inv_congr code_size s _ h rfl rfl (fun ev hev => by simp [hev])
  · simp only
    split_ifs
    · exact Inv_congr code_size s _ h rfl rfl (fun _ hev => hev)
    · exact hbase _
    · exact hinit _
    · exact Inv_congr code_size _ _ (hinit _) rfl rfl (fun _ hev => hev)
    · exact Inv_congr code_size _ _ (hbase _) rfl rfl (fun _ hev => hev)

/-! ## The perf map file -/

theorem digitChar_ne_newline (d : Nat) : Nat.digitChar d ≠ newline := by
  by_cases h : d < 16
  · interval_cases d <;> decide
  · have hstar : Nat.digitChar d = '*' := by
      unfold Nat.digitChar
      repeat rw [if_neg (by omega)]
    rw [hstar]
    decide

theorem toDigitsCore_no_newline (base : Nat) :
    ∀ (fuel n : Nat) (ds : List Char), newline ∉ ds →
      newline ∉ Nat.toDigitsCore base fuel n ds := by
  intro fuel
  induction fuel with
  | zero =>
    intro n ds h
    simpa [Nat.toDigitsCore] using h
  | succ fuel ih =>
    intro n ds h
    have hd : newline ∉ Nat.digitChar (n % base) :: ds := by
      intro hmem
      rcases List.mem_cons.mp hmem with h1 | h1
      · exact digitChar_ne_newline _ h1.symm
      · exact h h1
    unfold Nat.toDigitsCore
    simp only
    split_ifs
    · exact hd
    · exact ih _ _ hd

theorem fmt_x_no_newline (n : Nat) : newline ∉ (fmt_x n).data := by
  unfold fmt_x Nat.toDigits
  exact toDigitsCore_no_newline 16 _ _ _ (List.not_mem_nil _)

theorem fmt_p_no_newline (n : Nat) : newline ∉ (fmt_p n).data := by
  unfold fmt_p
  split_ifs
  · decide
  · rw [String.data_append, List.mem_append]
    rintro (h | h)
    · exact absurd h (by decide)
    · exact fmt_x_no_newline n h

/-- A record whose two names hold no newline is exactly one line. -/
theorem perf_map_line_one_line (addr size : Nat) (q f : String)
    (hq : newline ∉ q.data) (hf : newline ∉ f.data) :
    one_line (perf_map_line addr size q f) := by
  have h1 := List.count_eq_zero_of_not_mem (fmt_p_no_newline addr)
  have h2 := List.count_eq_zero_of_not_mem (fmt_x_no_newline size)
  have h3 := List.count_eq_zero_of_not_mem hq
  have h4 := List.count_eq_zero_of_not_mem hf
  have e2 : (" " : String).data.count newline = 0 := by decide
  have e3 : (" py::" : String).data.count newline = 0 := by decide
  have e4 : (":" : String).data.count newline = 0 := by decide
  have e5 : ("\n" : String).data.count newline = 1 := by decide
  constructor
  · simp only [perf_map_line, String.data_append, List.count_append, h1, h2, h3, h4,
      e2, e3, e4, e5]
  · simp only [perf_map_line, String.data_append]
    rw [List.getLast?_append]
    rfl

@[simp] theorem file_writes_nil : file_writes [] = [] := rfl

@[simp] theorem file_writes_append (t u : List Event) :
    file_writes (t ++ u) = file_writes t ++ file_writes u := by
  simp [file_writes]

@[simp] theorem file_writes_cons (ev : Event) (t : List Event) :
    file_writes (ev :: t) = (if ev.is_fprintf then [ev] else []) ++ file_writes t := by
  cases h : ev.is_fprintf <;> simp [file_writes, h]

@[simp] theorem file_writes_memcpy (f : Nat → Event) (n : Nat)
    (hf : ∀ i, (f i).is_fprintf = false) :
    file_writes ((List.range n).map f) = [] := by
  simp [file_writes, hf]

theorem new_code_arena_file_writes (code_size : Nat) (e : sys_env) (s : State) :
    file_writes (new_code_arena code_size e s).1.trace = file_writes s.trace := by
  unfold new_code_arena
  simp only
  split_ifs <;> simp [Event.is_fprintf]

theorem compile_trampoline_file_writes (code_size : Nat) (e : sys_env) (s : State) :
    file_writes (compile_trampoline code_size e s).1.trace = file_writes s.trace := by
  unfold compile_trampoline
  have hr : file_writes (if needs_new_arena s.code_arena then new_code_arena code_size e s
      else (s, 0)).1.trace = file_writes s.trace := by
    split_ifs
    · exact new_code_arena_file_writes code_size e s
    · rfl
  generalize (if needs_new_arena s.code_arena then new_code_arena code_size e s
      else (s, 0)) = r at hr ⊢
  simp only
  split_ifs
  · exact hr
  · split <;> exact hr

theorem request_extra_index_file_writes (e : sys_env) (s : State) :
    file_writes (request_extra_index e s).trace = file_writes s.trace := by
  unfold request_extra_index
  split_ifs <;> simp [Event.is_fprintf]

/-- The text `fprintf` makes of the format of `_Py_perf_map_write_entry` is the
record of the specification, with each name read as a C string. -/
theorem c_format_record (addr size : Nat) (q f : String) :
    String.mk (c_format "%p %x py::%s:%s\n".data [.ptr addr, .uint size, .str q, .str f])
      = perf_map_line addr size (c_str q) (c_str f) := by
  apply String.ext
  simp [c_format, c_convert, perf_map_line, String.data_append]

/-- A name without NUL character is its own C string. -/
theorem c_str_of_no_nul (s : String) (h : Char.ofNat 0 ∉ s.data) : c_str s = s := by
  unfold c_str
  have : s.data.takeWhile (fun c => c != Char.ofNat 0) = s.data := by
    rw [List.takeWhile_eq_self_iff]
    intro c hc
    simp only [bne_iff_ne, ne_eq]
    intro h0
    exact h (h0 ▸ hc)
  rw [this]

/-- What `_Py_perf_map_write_entry` does on a file that is not `NULL` when both
names are readable: one `fprintf` of the record, then one `fflush`, on the file
it was given. -/
theorem _Py_perf_map_write_entry_readable (s : State) (state code_addr code_size : Nat)
    (co : PyCodeObject) (q f : String) (hs : state ≠ 0) (hq : co.co_qualname = some q)
    (hf : co.co_filename = some f) :
    _Py_perf_map_write_entry s state code_addr code_size co =
      some ((s.emit (.fprintf state
        (perf_map_line code_addr code_size (c_str q) (c_str f)))).emit (.fflush state)) := by
  unfold _Py_perf_map_write_entry
  rw [if_neg hs, hq, hf, ← c_format_record]

/-- A miss that obtains a trampoline, with the file backend as `write_state`
and both names readable, appends exactly one record to the file. -/
theorem py_trampoline_evaluator_miss_file (code_size : Nat) (e : sys_env) (s : State)
    (ts : Nat) (frame : PyInterpreterFrame) (throw : Int) (q f : String)
    (hok : s.perf_status = .PERF_STATUS_OK) (hmiss : s.co_extra frame.f_code.co_id = 0)
    (hne : (compile_trampoline code_size e (request_extra_index e s)).2 ≠ 0)
    (hw : s.trampoline_api.write_state = .perf_map) (hst : s.trampoline_api.state ≠ 0)
    (hq : frame.f_code.co_qualname = some q) (hf : frame.f_code.co_filename = some f) :
    file_writes (py_trampoline_evaluator code_size e s ts frame throw).1.trace =
      file_writes s.trace ++
        [.fprintf s.trampoline_api.state
          (perf_map_line (compile_trampoline code_size e (request_extra_index e s)).2
            (active_code_size (compile_trampoline code_size e (request_extra_index e s)).1
              % 4294967296) (c_str q) (c_str f))] := by
  rw [py_trampoline_evaluator_miss code_size e s ts frame throw hok hmiss, if_neg hne]
  have hc3 := compile_trampoline_trampoline_api code_size e (request_extra_index e s)
  have hc4 := compile_trampoline_file_writes code_size e (request_extra_index e s)
  rw [request_extra_index_trampoline_api] at hc3
  rw [request_extra_index_file_writes] at hc4
  generalize compile_trampoline code_size e (request_extra_index e s) = c at *
  have hw' : c.1.trampoline_api.write_state = .perf_map := by rw [hc3, hw]
  simp only [_PyCode_SetExtra, call_write_state, emit_trace, emit_trampoline_api, hw', hc3,
    _Py_perf_map_write_entry_readable _ _ _ _ _ q f hst hq hf]
  rw [hw]
  simp [Event.is_fprintf, hc4]

/-- A miss under status `OK` with a succeeding, fresh environment, opened up:
the arena `a0` that serves it, the state it leaves, and the code size of the
active arena. -/
theorem py_trampoline_evaluator_alloc (code_size : Nat) (hpos : 0 < code_size)
    (hle : code_size ≤ mem_size) (e : sys_env) (s : State)
    (ts : Nat) (frame : PyInterpreterFrame) (throw : Int)
    (hinv : Inv code_size s) (hok : s.perf_status = .PERF_STATUS_OK)
    (he : e.arena_succeeds) (hfresh : e.fresh_for s.code_arena)
    (hmiss : s.co_extra frame.f_code.co_id = 0) :
    ∃ a0 prev,
      (a0 :: prev = s.code_arena ∨
        (a0 = fresh_arena code_size e.mmap_ret ∧ prev = s.code_arena ∧
          ∀ a ∈ s.code_arena, regions_disjoint e.mmap_ret mem_size a.start_addr a.size)) ∧
      arena_sound code_size (py_trampoline_evaluator code_size e s ts frame throw).1.trace a0 ∧
      code_size ≤ a0.size_left ∧
      arenas_ok code_size (py_trampoline_evaluator code_size e s ts frame throw).1 ∧
      (py_trampoline_evaluator code_size e s ts frame throw).1.code_arena
        = (code_arena_new_code a0).2 :: prev ∧
      (py_trampoline_evaluator code_size e s ts frame throw).1.co_extra
        = (fun c => if c = frame.f_code.co_id then a0.current_addr else s.co_extra c) ∧
      (compile_trampoline code_size e (request_extra_index e s)).2 = a0.current_addr ∧
      (compile_trampoline code_size e (request_extra_index e s)).2 ≠ 0 ∧
      active_code_size (compile_trampoline code_size e (request_extra_index e s)).1
        = code_size := by
  have h1 := request_extra_index_arenas_ok code_size e s hinv.arenas
  have hne := compile_trampoline_succeeds code_size e _ h1 he
  obtain ⟨a0, prev, hfrom, hs, hroom, hret, hl, _⟩ :=
    compile_trampoline_serves code_size hle e _ h1 hne
  have hc := compile_trampoline_arenas_ok code_size hpos hle e _ h1
  obtain ⟨_, _, hex, hca, _, _⟩ :=
    py_trampoline_evaluator_miss_ok code_size e s ts frame throw hok hmiss hne
  have htr := py_trampoline_evaluator_miss_trace code_size e s ts frame throw hok hmiss hne
  rw [request_extra_index_code_arena] at hfrom
  rw [hret] at hex
  obtain ⟨_, _, hnew, _, _, _, _⟩ := code_arena_new_code_sound code_size _ a0 hpos hs hroom
  refine ⟨a0, prev, ?_, arena_sound_mono code_size _ _ a0 htr hs, hroom, ?_, ?_, hex, hret,
    hne, ?_⟩
  · rcases hfrom with hfrom | ⟨h3, h4, _⟩
    · exact Or.inl hfrom
    · exact Or.inr ⟨h3, h4, hfresh⟩
  · intro a ha
    rw [hca] at ha
    exact arena_sound_mono code_size _ _ a htr (hc a ha)
  · rw [hca, hl]
  · unfold active_code_size
    rw [hl, hnew]
    exact hs.1

/-- The slots stay whole and apart when the cursor of `a0`, the head arena or a
fresh arena disjoint from the others, is handed out. -/
theorem Slots_after_alloc (code_size : Nat) (hpos : 0 < code_size) (s s' : State)
    (hinv : Inv code_size s) (hslots : Slots code_size s) (m : Nat) (a0 : code_arena_t)
    (prev : List code_arena_t)
    (hfrom : a0 :: prev = s.code_arena ∨
      (a0 = fresh_arena code_size m ∧ prev = s.code_arena ∧
        ∀ a ∈ s.code_arena, regions_disjoint m mem_size a.start_addr a.size))
    (hs0 : arena_sound code_size s'.trace a0) (hroom : code_size ≤ a0.size_left)
    (hl : s'.code_arena = (code_arena_new_code a0).2 :: prev)
    (co : Nat)
    (hex : s'.co_extra = fun c => if c = co then a0.current_addr else s.co_extra c) :
    Slots code_size s' := by
  obtain ⟨_, _, hnew, hb1, _, hb3, _⟩ :=
    code_arena_new_code_sound code_size _ a0 hpos hs0 hroom
  have hstart : (code_arena_new_code a0).2.start_addr = a0.start_addr := by rw [hnew]
  have hcur : (code_arena_new_code a0).2.current_addr = a0.current_addr + code_size := by
    rw [hnew]
  have hend : ∀ a ∈ s.code_arena, a.current_addr ≤ a.start_addr + a.size := by
    intro a ha
    obtain ⟨_, _, h3, _, _, _, _⟩ := hinv.arenas a ha
    omega
  have hdis : ∀ b ∈ prev, regions_disjoint a0.start_addr a0.size b.start_addr b.size := by
    intro b hb
    rcases hfrom with hfrom | ⟨h1, h2, h3⟩
    · have := hinv.disjoint
      rw [← hfrom] at this
      exact (List.pairwise_cons.mp this).1 b hb
    · rw [h1]
      exact h3 b (by rw [← h2]; exact hb)
  have hprev : ∀ b ∈ prev, b ∈ s.code_arena := by
    intro b hb
    rcases hfrom with hfrom | ⟨_, h2, _⟩
    · rw [← hfrom]
      exact List.mem_cons_of_mem a0 hb
    · rw [← h2]
      exact hb
  have hold : ∀ d, s.co_extra d ≠ 0 →
      (a0.start_addr ≤ s.co_extra d ∧ s.co_extra d + code_size ≤ a0.current_addr) ∨
      ∃ b ∈ prev, b.start_addr ≤ s.co_extra d ∧ s.co_extra d + code_size ≤ b.current_addr := by
    intro d hd
    obtain ⟨a, ha, h1, h2⟩ := hslots.below d hd
    rcases hfrom with hfrom | ⟨_, hp, _⟩
    · rw [← hfrom] at ha
      rcases List.mem_cons.mp ha with rfl | ha
      · exact Or.inl ⟨h1, h2⟩
      · exact Or.inr ⟨a, ha, h1, h2⟩
    · exact Or.inr ⟨a, by rw [hp]; exact ha, h1, h2⟩
  have hnew_slot : ∀ d, s.co_extra d ≠ 0 →
      s.co_extra d + code_size ≤ a0.current_addr ∨
      a0.current_addr + code_size ≤ s.co_extra d := by
    intro d hd
    rcases hold d hd with ⟨_, h2⟩ | ⟨b, hb, h1, h2⟩
    · exact Or.inl h2
    · have h3 := hdis b hb
      have h4 := hend b (hprev b hb)
      unfold regions_disjoint at h3
      omega
  refine ⟨?_, ?_⟩
  · intro c hc
    rw [hex] at hc ⊢
    simp only at hc ⊢
    by_cases hco : c = co
    · rw [if_pos hco]
      refine ⟨(code_arena_new_code a0).2, by rw [hl]; exact List.mem_cons_self _ _, ?_, ?_⟩
      · rw [hstart]
        exact hb1
      · rw [hcur]
    · rw [if_neg hco] at hc ⊢
      rcases hold c hc with ⟨h1, h2⟩ | ⟨b, hb, h1, h2⟩
      · refine ⟨(code_arena_new_code a0).2, by rw [hl]; exact List.mem_cons_self _ _, ?_, ?_⟩
        · rw [hstart]
          exact h1
        · rw [hcur]
          omega
      · exact ⟨b, by rw [hl]; exact List.mem_cons_of_mem _ hb, h1, h2⟩
  · intro c d hcd hc hd
    rw [hex] at hc hd ⊢
    simp only at hc hd ⊢
    by_cases hco : c = co
    · have hdo : d ≠ co := fun h => hcd (by rw [hco, h])
      rw [if_pos hco, if_neg hdo]
      rw [if_neg hdo] at hd
      rcases hnew_slot d hd with h | h
      · exact Or.inr h
      · exact Or.inl h
    · rw [if_neg hco] at hc ⊢
      by_cases hdo : d = co
      · rw [if_pos hdo]
        exact hnew_slot c hc
      · rw [if_neg hdo] at hd ⊢
        exact hslots.apart c d hcd hc hd

/-- A sequence of first dispatches of pairwise distinct code objects with
readable names, under status `OK` with the file backend as `write_state`: the
slots stay whole and apart, and the file receives one record per dispatch, in
order, each with the address the code object has cached at the end and with
`code_size` as its size. -/
theorem dispatch_all_records (code_size : Nat) (hpos : 0 < code_size)
    (hle : code_size ≤ mem_size) (calls : List dispatch_call) :
    ∀ s, Inv code_size s → Slots code_size s → s.perf_status = .PERF_STATUS_OK →
      s.trampoline_api.write_state = .perf_map → s.trampoline_api.state ≠ 0 →
      (∀ c ∈ calls, c.env.arena_succeeds) →
      (∀ c ∈ calls, c.env.fresh_for s.code_arena) →
      calls.Pairwise (fun c d =>
        regions_disjoint c.env.mmap_ret mem_size d.env.mmap_ret mem_size) →
      (calls.map fun c => c.frame.f_code.co_id).Nodup →
      (∀ c ∈ calls, s.co_extra c.frame.f_code.co_id = 0) →
      (∀ c ∈ calls, ∃ q f, c.frame.f_code.co_qualname = some q ∧
        c.frame.f_code.co_filename = some f) →
      Slots code_size (dispatch_all code_size calls s).1 ∧
      file_writes (dispatch_all code_size calls s).1.trace =
        file_writes s.trace ++ calls.map (fun c =>
          .fprintf s.trampoline_api.state
            (perf_map_line ((dispatch_all code_size calls s).1.co_extra c.frame.f_code.co_id)
              code_size (c_str (c.frame.f_code.co_qualname.getD ""))
              (c_str (c.frame.f_code.co_filename.getD "")))) := by
  induction calls with
  | nil =>
    intro s _ hslots _ _ _ _ _ _ _ _ _
    exact ⟨hslots, by simp [dispatch_all]⟩
  | cons c cs ih =>
    intro s hinv hslots hok hw hst hsucc hfresh hpair hnodup hmiss hnames
    obtain ⟨hcd, hpair'⟩ := List.pairwise_cons.mp hpair
    have hcsucc := hsucc c (List.mem_cons_self c cs)
    have hcfresh := hfresh c (List.mem_cons_self c cs)
    have hcmiss := hmiss c (List.mem_cons_self c cs)
    obtain ⟨q, f, hq, hf⟩ := hnames c (List.mem_cons_self c cs)
    obtain ⟨hinv1, hok1, hnz, _, _, hprov⟩ :=
      py_trampoline_evaluator_step code_size hpos hle c.env s c.ts c.frame c.throw hinv hok
        hcsucc hcfresh
    obtain ⟨a0, prev, hfrom, hs0, hroom, _, hl, hex, hret, hne, hacs⟩ :=
      py_trampoline_evaluator_alloc code_size hpos hle c.env s c.ts c.frame c.throw hinv hok
        hcsucc hcfresh hcmiss
    have hslots1 := Slots_after_alloc code_size hpos s _ hinv hslots c.env.mmap_ret a0 prev
      hfrom hs0 hroom hl c.frame.f_code.co_id hex
    obtain ⟨_, _, _, _, hapi, _⟩ :=
      py_trampoline_evaluator_miss_ok code_size c.env s c.ts c.frame c.throw hok hcmiss hne
    have hfile := py_trampoline_evaluator_miss_file code_size c.env s c.ts c.frame c.throw
      q f hok hcmiss hne hw hst hq hf
    have hsmall : code_size % 4294967296 = code_size := by
      unfold mem_size at hle
      omega
    rw [hacs, hsmall] at hfile
    obtain ⟨hnot, hnodup'⟩ := List.nodup_cons.mp hnodup
    have hfresh1 : ∀ d ∈ cs, d.env.fresh_for
        (py_trampoline_evaluator code_size c.env s c.ts c.frame c.throw).1.code_arena := by
      intro d hd a ha
      rcases hprov a ha with ⟨b, hb, h1, h2⟩ | ⟨h1, h2⟩
      · rw [h1, h2]
        exact hfresh d (List.mem_cons_of_mem c hd) b hb
      · rw [h1, h2]
        exact regions_disjoint_symm _ _ _ _ (hcd d hd)
    have hmiss1 : ∀ d ∈ cs,
        (py_trampoline_evaluator code_size c.env s c.ts c.frame c.throw).1.co_extra
          d.frame.f_code.co_id = 0 := by
      intro d hd
      rw [hex]
      have hne_id : d.frame.f_code.co_id ≠ c.frame.f_code.co_id := by
        intro h
        exact hnot (List.mem_map.mpr ⟨d, hd, h⟩)
      simp only [if_neg hne_id]
      exact hmiss d (List.mem_cons_of_mem c hd)
    have hsucc1 : ∀ d ∈ cs, d.env.arena_succeeds :=
      fun d hd => hsucc d (List.mem_cons_of_mem c hd)
    obtain ⟨hslots2, hfile2⟩ :=
      ih _ hinv1 hslots1 hok1 (by rw [hapi]; exact hw) (by rw [hapi]; exact hst) hsucc1
        hfresh1 hpair' hnodup' hmiss1
        (fun d hd => hnames d (List.mem_cons_of_mem c hd))
    obtain ⟨_, _, _, hkeep2⟩ :=
      dispatch_all_spec code_size hpos hle cs _ hinv1 hok1 hsucc1 hfresh1 hpair'
    refine ⟨hslots2, ?_⟩
    simp only [dispatch_all, List.map_cons]
    rw [hfile2, hfile, hapi, hkeep2 _ hnz, hq, hf]
    have hval : (py_trampoline_evaluator code_size c.env s c.ts c.frame c.throw).1.co_extra
        c.frame.f_code.co_id
        = (compile_trampoline code_size c.env (request_extra_index c.env s)).2 := by
      rw [hex, hret]
      simp
    rw [hval]
    simp

theorem Slots_of_empty (code_size : Nat) (s : State) (hc : ∀ c, s.co_extra c = 0) :
    Slots code_size s :=
  ⟨fun c h => absurd (hc c) h, fun c _ _ h _ => absurd (hc c) h⟩

/-- The slot invariant only reads the auxiliary slots and asks the arenas to
stay in the list. -/
theorem Slots_congr (code_size : Nat) (s s' : State) (h : Slots code_size s)
    (ha : ∀ a ∈ s.code_arena, a ∈ s'.code_arena) (hc : s'.co_extra = s.co_extra) :
    Slots code_size s' := by
  refine ⟨?_, ?_⟩
  · intro c hne
    rw [hc] at hne ⊢
    obtain ⟨a, hmem, h1, h2⟩ := h.below c hne
    exact ⟨a, ha a hmem, h1, h2⟩
  · rw [hc]
    exact h.apart

theorem new_code_arena_Slots (code_size : Nat) (e : sys_env) (s : State)
    (h : Slots code_size s) : Slots code_size (new_code_arena code_size e s).1 := by
  refine Slots_congr code_size s _ h ?_ (new_code_arena_co_extra code_size e s)
  intro a ha
  rcases (new_code_arena_cases code_size e s).1 with ⟨_, _, hl, _⟩ | ⟨_, hl⟩
  · rw [hl]
    exact List.mem_cons_of_mem _ ha
  · rw [hl]
    exact ha

/-- `_PyPerfTrampoline_Init` keeps the slot invariant. -/
theorem Init_Slots (code_size : Nat) (e : sys_env) (s : State) (activate : Int)
    (h : Slots code_size s) :
    Slots code_size (_PyPerfTrampoline_Init code_size e s activate).1 := by
  have hbase : ∀ f : eval_frame_t, Slots code_size
      (new_code_arena code_size e { s with eval_frame := f }).1 :=
    fun f => new_code_arena_Slots code_size e _
      (Slots_congr code_size s _ h (fun _ ha => ha) rfl)
  have hinit : ∀ f : eval_frame_t, Slots code_size
      (call_init_state e (new_code_arena code_size e { s with eval_frame := f }).1).1 := by
    intro f
    obtain ⟨h1, h2, _⟩ :=
      call_init_state_frame e (new_code_arena code_size e { s with eval_frame := f }).1
    exact Slots_congr code_size _ _ (hbase f) (fun a ha => by rw [h1]; exact ha) h2
  unfold _PyPerfTrampoline_Init
  split
  · exact Slots_congr code_size s _ h (fun _ ha => ha) rfl
  · simp only
    split_ifs
    · exact Slots_congr code_size s _ h (fun _ ha => ha) rfl
    · exact hbase _
    · exact hinit _
    · exact Slots_congr code_size _ _ (hinit _) (fun _ ha => ha) rfl
    · exact Slots_congr code_size _ _ (hbase _) (fun _ ha => ha) rfl

/-- One dispatch under status `OK` with a succeeding, fresh environment keeps
the slot invariant. -/
theorem py_trampoline_evaluator_Slots (code_size : Nat) (hpos : 0 < code_size)
    (hle : code_size ≤ mem_size) (e : sys_env) (s : State)
    (ts : Nat) (frame : PyInterpreterFrame) (throw : Int)
    (hinv : Inv code_size s) (hslots : Slots code_size s)
    (hok : s.perf_status = .PERF_STATUS_OK)
    (he : e.arena_succeeds) (hfresh : e.fresh_for s.code_arena) :
    Slots code_size (py_trampoline_evaluator code_size e s ts frame throw).1 := by
  by_cases hmiss : s.co_extra frame.f_code.co_id = 0
  · obtain ⟨a0, prev, hfrom, hs0, hroom, _, hl, hex, _, _, _⟩ :=
      py_trampoline_evaluator_alloc code_size hpos hle e s ts frame throw hinv hok he hfresh
        hmiss
    exact Slots_after_alloc code_size hpos s _ hinv hslots e.mmap_ret a0 prev hfrom hs0 hroom
      hl frame.f_code.co_id hex
  · rw [py_trampoline_evaluator_hit code_size e s ts frame throw hok hmiss]
    exact hslots

/-- C11 as first stated fails on the code.  (a) With the readable file name
`a`, newline, `b.py` the text `_Py_perf_map_write_entry` appends is not one
line: it holds two newlines.  (b) With a NUL character in the qualified name
the record holds the name only up to that character.  (c) On a `NULL` file the
function appends nothing: it does not return. -/
theorem perf_map_record_not_one_line :
    ((_Py_perf_map_write_entry (registered_state .perf_map .perf_map .perf_map)
        8192 1000000 16384
        { co_id := 7, co_qualname := some "foo", co_filename := some "a\nb.py" }).map
        fun s => s.trace)
      = some [.fprintf 8192 "0xf4240 4000 py::foo:a\nb.py\n", .fflush 8192] ∧
    ¬ one_line "0xf4240 4000 py::foo:a\nb.py\n" ∧
    ((_Py_perf_map_write_entry (registered_state .perf_map .perf_map .perf_map)
        8192 1000000 16384
        { co_id := 7, co_qualname := some name_with_nul, co_filename := some "m.src" }).map
        fun s => s.trace)
      = some [.fprintf 8192 "0xf4240 4000 py::fo:m.src\n", .fflush 8192] ∧
    ((_Py_perf_map_write_entry (registered_state .perf_map .perf_map .perf_map)
        0 1000000 16384 (sample_code 7 "foo")).map fun s => s.trace) = none := by
  unfold one_line
  decide

/-- C11, amended: the perf map file.  (1) For every code object whose
qualified name and file name are both readable, and every file that is not
`NULL`, `_Py_perf_map_write_entry` makes one `fprintf` of the record
`<address> <code size in lower-case hexadecimal> py::q:f` followed by a
newline, where `q` and `f` are the two names read as C strings (up to their
first NUL character, so the names themselves when they hold none), then one
`fflush`, both on the file it was given, and nothing else; the record is
exactly one newline-terminated line when `q` and `f` hold no newline.  (2)
Consequently, in a state that satisfies the invariants with status `OK`, the
file backend as `write_state` and a backend state that is not `NULL`,
dispatching three code objects `foo`, `bar`, `baz` of file `m.src` that have no
trampoline yet, every arena creation succeeding on fresh mappings and
`0 < code_size ≤ size`, appends exactly three records to the file, in that
order, each exactly one line ending in `py::foo:m.src`, `py::bar:m.src`,
`py::baz:m.src`, with size field `code_size` and with the address the dispatch
went through; the three ranges `[addr, addr + code_size)` do not overlap. -/
theorem perf_map_records :
    (∀ (s : State) (state code_addr size : Nat) (co : PyCodeObject) (q f : String),
      state ≠ 0 → co.co_qualname = some q → co.co_filename = some f →
      _Py_perf_map_write_entry s state code_addr size co =
          some ((s.emit (.fprintf state
            (perf_map_line code_addr size (c_str q) (c_str f)))).emit (.fflush state)) ∧
        (Char.ofNat 0 ∉ q.data → c_str q = q) ∧
        (Char.ofNat 0 ∉ f.data → c_str f = f) ∧
        (newline ∉ (c_str q).data → newline ∉ (c_str f).data →
          one_line (perf_map_line code_addr size (c_str q) (c_str f)))) ∧
    (∀ (code_size : Nat) (s : State) (c1 c2 c3 : dispatch_call) (id1 id2 id3 : Nat),
      0 < code_size → code_size ≤ mem_size →
      Inv code_size s → Slots code_size s → s.perf_status = .PERF_STATUS_OK →
      s.trampoline_api.write_state = .perf_map → s.trampoline_api.state ≠ 0 →
      c1.frame = sample_frame id1 "foo" → c2.frame = sample_frame id2 "bar" →
      c3.frame = sample_frame id3 "baz" →
      id1 ≠ id2 → id1 ≠ id3 → id2 ≠ id3 →
      s.co_extra id1 = 0 → s.co_extra id2 = 0 → s.co_extra id3 = 0 →
      (∀ c ∈ [c1, c2, c3], c.env.arena_succeeds) →
      (∀ c ∈ [c1, c2, c3], c.env.fresh_for s.code_arena) →
      [c1, c2, c3].Pairwise (fun c d =>
        regions_disjoint c.env.mmap_ret mem_size d.env.mmap_ret mem_size) →
      ∃ a1 a2 a3 : Nat,
        (dispatch_all code_size [c1, c2, c3] s).2.map eval_result.trampoline
          = [some a1, some a2, some a3] ∧
        file_writes (dispatch_all code_size [c1, c2, c3] s).1.trace =
          file_writes s.trace ++
            [.fprintf s.trampoline_api.state (perf_map_line a1 code_size "foo" "m.src"),
             .fprintf s.trampoline_api.state (perf_map_line a2 code_size "bar" "m.src"),
             .fprintf s.trampoline_api.state (perf_map_line a3 code_size "baz" "m.src")] ∧
        one_line (perf_map_line a1 code_size "foo" "m.src") ∧
        one_line (perf_map_line a2 code_size "bar" "m.src") ∧
        one_line (perf_map_line a3 code_size "baz" "m.src") ∧
        (a1 + code_size ≤ a2 ∨ a2 + code_size ≤ a1) ∧
        (a1 + code_size ≤ a3 ∨ a3 + code_size ≤ a1) ∧
        (a2 + code_size ≤ a3 ∨ a3 + code_size ≤ a2)) := by
  constructor
  · intro s state code_addr size co q f hs hq hf
    exact ⟨_Py_perf_map_write_entry_readable s state code_addr size co q f hs hq hf,
      c_str_of_no_nul q, c_str_of_no_nul f,
      fun h1 h2 => perf_map_line_one_line code_addr size _ _ h1 h2⟩
  · intro code_size s c1 c2 c3 id1 id2 id3 hpos hle hinv hslots hok hw hst hf1 hf2 hf3
      h12 h13 h23 hm1 hm2 hm3 hsucc hfresh hpair
    have hi1 : c1.frame.f_code.co_id = id1 := by rw [hf1]; rfl
    have hi2 : c2.frame.f_code.co_id = id2 := by rw [hf2]; rfl
    have hi3 : c3.frame.f_code.co_id = id3 := by rw [hf3]; rfl
    have hnodup : ([c1, c2, c3].map fun c => c.frame.f_code.co_id).Nodup := by
      simp only [List.map_cons, List.map_nil, hi1, hi2, hi3]
      simp [h12, h13, h23]
    have hmiss : ∀ c ∈ [c1, c2, c3], s.co_extra c.frame.f_code.co_id = 0 := by
      intro c hc
      simp only [List.mem_cons, List.mem_singleton, List.not_mem_nil, or_false] at hc
      rcases hc with rfl | rfl | rfl
      · rw [hi1]; exact hm1
      · rw [hi2]; exact hm2
      · rw [hi3]; exact hm3
    have hnames : ∀ c ∈ [c1, c2, c3], ∃ q f, c.frame.f_code.co_qualname = some q ∧
        c.frame.f_code.co_filename = some f := by
      intro c hc
      simp only [List.mem_cons, List.mem_singleton, List.not_mem_nil, or_false] at hc
      rcases hc with rfl | rfl | rfl
      · exact ⟨"foo", "m.src", by rw [hf1]; rfl, by rw [hf1]; rfl⟩
      · exact ⟨"bar", "m.src", by rw [hf2]; rfl, by rw [hf2]; rfl⟩
      · exact ⟨"baz", "m.src", by rw [hf3]; rfl, by rw [hf3]; rfl⟩
    obtain ⟨_, hmap, hnz, _⟩ :=
      dispatch_all_spec code_size hpos hle [c1, c2, c3] s hinv hok hsucc hfresh hpair
    obtain ⟨hslots', hfile⟩ :=
      dispatch_all_records code_size hpos hle [c1, c2, c3] s hinv hslots hok hw hst hsucc
        hfresh hpair hnodup hmiss hnames
    have hz1 := hnz c1 (by simp)
    have hz2 := hnz c2 (by simp)
    have hz3 := hnz c3 (by simp)
    rw [hi1] at hz1
    rw [hi2] at hz2
    rw [hi3] at hz3
    have hsrc : newline ∉ ("m.src" : String).data := by decide
    have hfoo : c_str "foo" = "foo" := by decide
    have hbar : c_str "bar" = "bar" := by decide
    have hbaz : c_str "baz" = "baz" := by decide
    have hmsrc : c_str "m.src" = "m.src" := by decide
    refine ⟨(dispatch_all code_size [c1, c2, c3] s).1.co_extra id1,
      (dispatch_all code_size [c1, c2, c3] s).1.co_extra id2,
      (dispatch_all code_size [c1, c2, c3] s).1.co_extra id3, ?_, ?_,
      perf_map_line_one_line _ _ _ _ (by decide) hsrc,
      perf_map_line_one_line _ _ _ _ (by decide) hsrc,
      perf_map_line_one_line _ _ _ _ (by decide) hsrc,
      hslots'.apart id1 id2 h12 hz1 hz2, hslots'.apart id1 id3 h13 hz1 hz3,
      hslots'.apart id2 id3 h23 hz2 hz3⟩
    · rw [hmap]
      simp only [List.map_cons, List.map_nil, hi1, hi2, hi3]
    · rw [hfile]
      simp only [List.map_cons, List.map_nil, hi1, hi2, hi3, hf1, hf2, hf3, sample_frame,
        sample_code, Option.getD_some, hfoo, hbar, hbaz, hmsrc]

/-- C11, at a concrete input: after `_PyPerfTrampoline_Init(1)` with the file
backend (`code_size = 16384`, arena at `1000000`, file handle `8192`), the code
objects `foo`, `bar`, `baz` of `m.src` are dispatched once each. -/
theorem perf_map_records_witness :
    file_writes (dispatch_all 16384
        [⟨env_ok 2000000, 1, sample_frame 7 "foo", 0⟩,
         ⟨env_ok 3000000, 1, sample_frame 8 "bar", 0⟩,
         ⟨env_ok 4000000, 1, sample_frame 9 "baz", 0⟩]
        (active_state 16384 1000000)).1.trace
      = [.fprintf 8192 "0xf4240 4000 py::foo:m.src\n",
         .fprintf 8192 "0xf8240 4000 py::bar:m.src\n",
         .fprintf 8192 "0xfc240 4000 py::baz:m.src\n"] ∧
    ∃ a1 a2 a3 : Nat,
      (dispatch_all 16384
        [⟨env_ok 2000000, 1, sample_frame 7 "foo", 0⟩,
         ⟨env_ok 3000000, 1, sample_frame 8 "bar", 0⟩,
         ⟨env_ok 4000000, 1, sample_frame 9 "baz", 0⟩]
        (active_state 16384 1000000)).2.map eval_result.trampoline
        = [some a1, some a2, some a3] ∧
      file_writes (dispatch_all 16384
        [⟨env_ok 2000000, 1, sample_frame 7 "foo", 0⟩,
         ⟨env_ok 3000000, 1, sample_frame 8 "bar", 0⟩,
         ⟨env_ok 4000000, 1, sample_frame 9 "baz", 0⟩]
        (active_state 16384 1000000)).1.trace =
        file_writes (active_state 16384 1000000).trace ++
          [.fprintf (active_state 16384 1000000).trampoline_api.state
              (perf_map_line a1 16384 "foo" "m.src"),
           .fprintf (active_state 16384 1000000).trampoline_api.state
              (perf_map_line a2 16384 "bar" "m.src"),
           .fprintf (active_state 16384 1000000).trampoline_api.state
              (perf_map_line a3 16384 "baz" "m.src")] ∧
      one_line (perf_map_line a1 16384 "foo" "m.src") ∧
      one_line (perf_map_line a2 16384 "bar" "m.src") ∧
      one_line (perf_map_line a3 16384 "baz" "m.src") ∧
      (a1 + 16384 ≤ a2 ∨ a2 + 16384 ≤ a1) ∧
      (a1 + 16384 ≤ a3 ∨ a3 + 16384 ≤ a1) ∧
      (a2 + 16384 ≤ a3 ∨ a3 + 16384 ≤ a2) :=
  ⟨by decide,
    perf_map_records.2 16384 (active_state 16384 1000000)
      ⟨env_ok 2000000, 1, sample_frame 7 "foo", 0⟩
      ⟨env_ok 3000000, 1, sample_frame 8 "bar", 0⟩
      ⟨env_ok 4000000, 1, sample_frame 9 "baz", 0⟩ 7 8 9
      (by decide) (by decide)
      (Init_Inv 16384 (env_ok 1000000) (registered_state .perf_map .perf_map .perf_map) 1
        (Inv_of_empty 16384 _ rfl (fun _ => rfl))
        (by simp [sys_env.fresh_for, registered_state]))
      (Slots_of_empty 16384 _ (fun _ => rfl))
      rfl rfl (by decide) rfl rfl rfl (by decide) (by decide) (by decide) rfl rfl rfl
      (by simp [sys_env.arena_succeeds, env_ok])
      (by simp [sys_env.fresh_for, active_state, _PyPerfTrampoline_Init, registered_state,
        new_code_arena, env_ok, call_init_state, _Py_perf_map_get_file, State.emit,
        State.emits, regions_disjoint, mem_size])
      (by simp [regions_disjoint, env_ok, mem_size])⟩

/-! ## Registration before publication -/

theorem compile_trampoline_trace (code_size : Nat) (e : sys_env) (s : State) :
    ∀ ev ∈ s.trace, ev ∈ (compile_trampoline code_size e s).1.trace := by
  unfold compile_trampoline
  have hr : ∀ ev ∈ s.trace, ev ∈ (if needs_new_arena s.code_arena
      then new_code_arena code_size e s else (s, 0)).1.trace := by
    split_ifs
    · exact (new_code_arena_cases code_size e s).2
    · exact fun _ h => h
  generalize (if needs_new_arena s.code_arena then new_code_arena code_size e s
      else (s, 0)) = r at hr ⊢
  simp only
  split_ifs
  · exact hr
  · split <;> exact hr

/-- The call of `write_state` puts its `write_state` entry first; whatever the
backend function adds after it is neither a `write_state` call nor a store
into an auxiliary slot. -/
theorem call_write_state_shape (s : State) (state addr code_size : Nat)
    (co : PyCodeObject) :
    ∃ mid, (call_write_state s state addr code_size co).trace =
        s.trace ++ .write_state state addr (code_size % 4294967296) co.co_id :: mid ∧
      write_calls mid = [] ∧ mid.filter Event.is_set_extra = [] := by
  obtain ⟨mid, h, h1, h2⟩ := call_write_state_cases s state addr code_size co
  refine ⟨mid, ?_, h1, h2⟩
  rw [h]
  simp

theorem all_registered_mono (s s' : State) (h : all_registered s)
    (hc : s'.co_extra = s.co_extra) (ht : ∀ ev ∈ s.trace, ev ∈ s'.trace) :
    all_registered s' := by
  intro c hne
  rw [hc] at hne ⊢
  obtain ⟨st, size, hmem⟩ := h c hne
  exact ⟨st, size, ht _ hmem⟩

theorem call_free_state_frame (s : State) (state : Nat) :
    (call_free_state s state).co_extra = s.co_extra ∧
    ∀ ev ∈ s.trace, ev ∈ (call_free_state s state).trace := by
  unfold call_free_state _Py_perf_map_close
  simp only
  split
  · split_ifs <;> simp_all
  · simp_all

theorem Init_frame (code_size : Nat) (e : sys_env) (s : State) (activate : Int) :
    (_PyPerfTrampoline_Init code_size e s activate).1.co_extra = s.co_extra ∧
    ∀ ev ∈ s.trace, ev ∈ (_PyPerfTrampoline_Init code_size e s activate).1.trace := by
  have hbase : ∀ f : eval_frame_t,
      (new_code_arena code_size e { s with eval_frame := f }).1.co_extra = s.co_extra ∧
      ∀ ev ∈ s.trace, ev ∈ (new_code_arena code_size e { s with eval_frame := f }).1.trace :=
    fun f => ⟨new_code_arena_co_extra code_size e _,
      (new_code_arena_cases code_size e { s with eval_frame := f }).2⟩
  have hinit : ∀ f : eval_frame_t,
      (call_init_state e (new_code_arena code_size e { s with eval_frame := f }).1).1.co_extra
        = s.co_extra ∧
      ∀ ev ∈ s.trace, ev ∈
        (call_init_state e (new_code_arena code_size e { s with eval_frame := f }).1).1.trace
      := by
    intro f
    obtain ⟨_, h2, h3⟩ :=
      call_init_state_frame e (new_code_arena code_size e { s with eval_frame := f }).1
    exact ⟨by rw [h2]; exact (hbase f).1, fun ev hev => h3 _ ((hbase f).2 ev hev)⟩
  unfold _PyPerfTrampoline_Init
  split
  · exact ⟨rfl, fun ev hev => by simp [hev]⟩
  · simp only
    split_ifs
    · exact ⟨rfl, fun _ hev => hev⟩
    · exact hbase _
    · exact hinit _
    · exact hinit _
    · exact hbase _

/-- The evaluator keeps `all_registered`: it stores an address only after the
`write_state` call for it is in the trace. -/
theorem py_trampoline_evaluator_all_registered (code_size : Nat) (e : sys_env) (s : State)
    (ts : Nat) (frame : PyInterpreterFrame) (throw : Int) (h : all_registered s) :
    all_registered (py_trampoline_evaluator code_size e s ts frame throw).1 := by
  by_cases hok : s.perf_status = .PERF_STATUS_OK
  · by_cases hmiss : s.co_extra frame.f_code.co_id = 0
    · have hsub : ∀ ev ∈ s.trace,
          ev ∈ (compile_trampoline code_size e (request_extra_index e s)).1.trace :=
        fun ev hev => compile_trampoline_trace code_size e _ ev
          (request_extra_index_trace e s ev hev)
      by_cases hne : (compile_trampoline code_size e (request_extra_index e s)).2 = 0
      · rw [py_trampoline_evaluator_miss code_size e s ts frame throw hok hmiss, if_pos hne]
        refine all_registered_mono s _ h ?_ hsub
        rw [compile_trampoline_co_extra, request_extra_index_co_extra]
      · obtain ⟨_, _, hex, _, _, hwc⟩ :=
          py_trampoline_evaluator_miss_ok code_size e s ts frame throw hok hmiss hne
        have htr :=
          py_trampoline_evaluator_miss_trace code_size e s ts frame throw hok hmiss hne
        intro c hc
        rw [hex] at hc ⊢
        simp only at hc ⊢
        by_cases hco : c = frame.f_code.co_id
        · rw [if_pos hco, hco]
          refine ⟨s.trampoline_api.state,
            active_code_size (compile_trampoline code_size e (request_extra_index e s)).1
              % 4294967296, ?_⟩
          have hmem : Event.write_state s.trampoline_api.state
              (compile_trampoline code_size e (request_extra_index e s)).2
              (active_code_size (compile_trampoline code_size e (request_extra_index e s)).1
                % 4294967296) frame.f_code.co_id
              ∈ write_calls (py_trampoline_evaluator code_size e s ts frame throw).1.trace := by
            rw [hwc]
            simp
          exact (List.mem_filter.mp hmem).1
        · rw [if_neg hco] at hc ⊢
          obtain ⟨st, size, hmem⟩ := h c hc
          exact ⟨st, size, htr _ (hsub _ hmem)⟩
    · rw [py_trampoline_evaluator_hit code_size e s ts frame throw hok hmiss]
      exact h
  · have hst : s.perf_status = .PERF_STATUS_FAILED ∨ s.perf_status = .PERF_STATUS_NO_INIT := by
      cases hp : s.perf_status
      · exact Or.inl rfl
      · exact Or.inr rfl
      · exact absurd hp hok
    unfold py_trampoline_evaluator
    rw [if_pos hst]
    exact h

theorem api_call_run_all_registered (code_size : Nat) (c : api_call) (s : State)
    (h : all_registered s) : all_registered (c.run code_size s) := by
  cases c with
  | call_SetCallbacks i w f =>
    unfold api_call.run _PyPerfTrampoline_SetCallbacks
    simp only
    split_ifs
    · exact h
    · exact all_registered_mono s _ h rfl (fun _ hev => hev)
  | call_Init e activate =>
    obtain ⟨h1, h2⟩ := Init_frame code_size e s activate
    exact all_registered_mono s _ h h1 h2
  | call_evaluator e ts frame throw =>
    exact py_trampoline_evaluator_all_registered code_size e s ts frame throw h
  | call_Fini =>
    obtain ⟨h1, h2⟩ := call_free_state_frame (free_code_arenas s)
      (free_code_arenas s).trampoline_api.state
    refine all_registered_mono s _ h h1 (fun ev hev => h2 ev ?_)
    simp [free_code_arenas, hev]
  | call_AfterFork_Child =>
    obtain ⟨h1, h2⟩ := call_free_state_frame s s.trampoline_api.state
    exact all_registered_mono s _ h h1 h2

theorem run_api_all_registered (code_size : Nat) (calls : List api_call) :
    ∀ s, all_registered s → all_registered (run_api code_size calls s) := by
  induction calls with
  | nil => intro s h; exact h
  | cons c cs ih =>
    intro s h
    exact ih _ (api_call_run_all_registered code_size c s h)

/-- C12: registration before publication.  (1) On a cache miss with status
`OK` where `compile_trampoline` returns a trampoline, the evaluator appends to
the trace that `compile_trampoline` left, in this order: the `write_state`
call with the backend state, the new address, the active arena's code size (as
the `unsigned int` parameter takes it) and the code object; then what the
backend function itself emits (or the entry `abort` when it stops the
process), which holds no `write_state` call and no store into a slot; then the
store of the address into the code object's auxiliary slot.  The slot is still unset when `write_state` is called, `write_state` is
called exactly once, and the value returned is the call of the new trampoline,
made after all of this.  With a sound arena list and `code_size ≤ size` the
size passed is `code_size` itself.  (2) Hence in every state reached from a
state without cached trampolines by any sequence of calls of
`_PyPerfTrampoline_SetCallbacks`, `_PyPerfTrampoline_Init`, the evaluator,
`_PyPerfTrampoline_Fini` and `_PyPerfTrampoline_AfterFork_Child`, every
address held in an auxiliary slot was passed to `write_state` for that code
object. -/
theorem write_state_before_publication :
    (∀ (code_size : Nat) (e : sys_env) (s : State) (ts : Nat) (frame : PyInterpreterFrame)
      (throw : Int),
      s.perf_status = .PERF_STATUS_OK →
      _PyCode_GetExtra s frame.f_code s.extra_code_index = 0 →
      (compile_trampoline code_size e (request_extra_index e s)).2 ≠ 0 →
      (∃ mid,
        (py_trampoline_evaluator code_size e s ts frame throw).1.trace =
          (compile_trampoline code_size e (request_extra_index e s)).1.trace ++
            .write_state s.trampoline_api.state
              (compile_trampoline code_size e (request_extra_index e s)).2
              (active_code_size (compile_trampoline code_size e (request_extra_index e s)).1
                % 4294967296)
              frame.f_code.co_id ::
            (mid ++
              [.set_extra frame.f_code.co_id
                (py_trampoline_evaluator code_size e s ts frame throw).1.extra_code_index
                (compile_trampoline code_size e (request_extra_index e s)).2]) ∧
        write_calls mid = [] ∧ mid.filter Event.is_set_extra = []) ∧
      (compile_trampoline code_size e (request_extra_index e s)).1.co_extra
        frame.f_code.co_id = 0 ∧
      (py_trampoline_evaluator code_size e s ts frame throw).1.co_extra frame.f_code.co_id
        = (compile_trampoline code_size e (request_extra_index e s)).2 ∧
      write_calls (py_trampoline_evaluator code_size e s ts frame throw).1.trace =
        write_calls s.trace ++
          [.write_state s.trampoline_api.state
            (compile_trampoline code_size e (request_extra_index e s)).2
            (active_code_size (compile_trampoline code_size e (request_extra_index e s)).1
              % 4294967296)
            frame.f_code.co_id] ∧
      (py_trampoline_evaluator code_size e s ts frame throw).2 =
        .trampoline_call (compile_trampoline code_size e (request_extra_index e s)).2
          ts frame throw ∧
      (arenas_ok code_size s → code_size ≤ mem_size →
        active_code_size (compile_trampoline code_size e (request_extra_index e s)).1
          % 4294967296 = code_size)) ∧
    (∀ (code_size : Nat) (s0 : State) (calls : List api_call),
      (∀ c, s0.co_extra c = 0) → all_registered (run_api code_size calls s0)) := by
  constructor
  · intro code_size e s ts frame throw hok hmiss hne
    have hmiss' : s.co_extra frame.f_code.co_id = 0 := hmiss
    obtain ⟨h2, _, hex, _, _, hwc⟩ :=
      py_trampoline_evaluator_miss_ok code_size e s ts frame throw hok hmiss' hne
    refine ⟨?_, ?_, ?_, hwc, h2, ?_⟩
    · rw [py_trampoline_evaluator_miss code_size e s ts frame throw hok hmiss', if_neg hne]
      have hc3 := compile_trampoline_trampoline_api code_size e (request_extra_index e s)
      rw [request_extra_index_trampoline_api] at hc3
      generalize compile_trampoline code_size e (request_extra_index e s) = c at *
      obtain ⟨mid, hshape, hm1, hm2⟩ :=
        call_write_state_shape c.1 c.1.trampoline_api.state c.2 (active_code_size c.1)
          frame.f_code
      rw [hc3] at hshape
      refine ⟨mid, ?_, hm1, hm2⟩
      simp only [_PyCode_SetExtra, emit_trace, emit_extra_code_index, hc3]
      rw [hshape]
      simp only [List.append_assoc, List.cons_append]
    · rw [compile_trampoline_co_extra, request_extra_index_co_extra]
      exact hmiss'
    · rw [hex]
      simp
    · intro harenas hle
      have h1 := request_extra_index_arenas_ok code_size e s harenas
      obtain ⟨a0, prev, _, hs, _, _, hl, _⟩ :=
        compile_trampoline_serves code_size hle e _ h1 hne
      have hacs : active_code_size
          (compile_trampoline code_size e (request_extra_index e s)).1 = code_size := by
        unfold active_code_size
        rw [hl]
        exact hs.1
      rw [hacs]
      unfold mem_size at hle
      omega
  · intro code_size s0 calls h0
    exact run_api_all_registered code_size calls s0 (fun c hc => absurd (h0 c) hc)

/-- C12, at a concrete input: a life cycle with two dispatches, a fork and a
teardown from a registered state; and the first dispatch of `foo` in the
active state. -/
theorem write_state_before_publication_witness :
    all_registered (run_api 16384
      [.call_Init (env_ok 1000000) 1,
       .call_evaluator (env_ok 2000000) 1 (sample_frame 7 "foo") 0,
       .call_AfterFork_Child,
       .call_evaluator (env_ok 3000000) 1 (sample_frame 8 "bar") 0,
       .call_Fini]
      (registered_state .perf_map .perf_map .perf_map)) ∧
    write_calls (py_trampoline_evaluator 16384 (env_ok 2000000) (active_state 16384 1000000)
        1 (sample_frame 7 "foo") 0).1.trace
      = write_calls (active_state 16384 1000000).trace ++
          [.write_state 8192 1000000 16384 7] ∧
    (py_trampoline_evaluator 16384 (env_ok 2000000) (active_state 16384 1000000)
        1 (sample_frame 7 "foo") 0).1.trace
      = (active_state 16384 1000000).trace ++
          [.request_index 0, .write_state 8192 1000000 16384 7,
           .fprintf 8192 "0xf4240 4000 py::foo:m.src\n", .fflush 8192,
           .set_extra 7 0 1000000] :=
  ⟨write_state_before_publication.2 16384
      (registered_state .perf_map .perf_map .perf_map)
      [.call_Init (env_ok 1000000) 1,
       .call_evaluator (env_ok 2000000) 1 (sample_frame 7 "foo") 0,
       .call_AfterFork_Child,
       .call_evaluator (env_ok 3000000) 1 (sample_frame 8 "bar") 0,
       .call_Fini]
      (fun _ => rfl),
    (write_state_before_publication.1 16384 (env_ok 2000000) (active_state 16384 1000000)
      1 (sample_frame 7 "foo") 0 rfl rfl (by decide)).2.2.2.1,
    by decide⟩

end PerfTrampoline
